import Mathlib

/-!
# cppcoro: io_uring operation adapters

A shallow embedding of `include/cppcoro/detail/linux_uring_operation.hpp`
(`uring_operation_base`, `uring_operation`, `uring_operation_cancellable`) and of the
operation types of `include/cppcoro/net/socket_recv_operation.hpp` that are built on it.

* C++ `int` values are integers of the range `INT_MIN .. INT_MAX`; the one arithmetic
  operation of the source, unary minus, wraps to 32 bits.
* An exception is an `Except.error`; `size_t` results are natural numbers.
* Objects are records, member functions are functions from the record (and the queue the
  object refers to) to the changed record and the returned value.
* The atomic state of the cancellable adapter is run by a step machine, one atomic access
  a step, so that other threads can be interleaved between the steps; the accesses take
  effect in the order of the steps.
-/

namespace cppcoro

/-! ## Machine integers -/

/-- Least value of a C++ `int`. -/
def INT_MIN : Int := -2147483648

/-- Largest value of a C++ `int`. -/
def INT_MAX : Int := 2147483647

/-- Values a C++ `int` can hold. -/
def is_int (x : Int) : Prop := INT_MIN ≤ x ∧ x ≤ INT_MAX

instance (x : Int) : Decidable (is_int x) := by
  unfold is_int; exact inferInstance

/-- Reduction of an integer to the 32-bit two's complement range. -/
def wrap_int (x : Int) : Int := (x + 2147483648) % 4294967296 - 2147483648

/-- Unary minus on `int` as the machine computes it (`-m_message.result`). -/
def int_neg (x : Int) : Int := wrap_int (-x)

/-- Conversion of a non-negative `int` to `std::size_t` (`return m_message.result`). -/
def to_size_t (x : Int) : Nat := (x % 18446744073709551616).toNat

/-- Value of `ECANCELED` in the Linux `<errno.h>`. -/
def ECANCELED : Int := 125

/-- Value of `EINTR` in the Linux `<errno.h>`. -/
def EINTR : Int := 4

/-! ## Outcomes -/

/-- The two exceptions the adapters throw: `cppcoro::operation_cancelled` and
`std::system_error` with its `int` error code (category `std::system_category()`). -/
inductive failure where
  | operation_cancelled
  | system_error (code : Int)
  deriving DecidableEq, Repr

/-! ## Pointers and plain data -/

/-- Pointer values the layer stores or hands to the queue. Members of an operation object
are named by the identity of the object. -/
inductive Ptr where
  | null
  | caller (a : Nat)
  | message (op : Nat)
  | vec (op : Nat)
  | msghdr (op : Nat)
  deriving DecidableEq, Repr

/-- A `coroutine_handle<>`: the address of the coroutine frame it refers to. -/
structure coroutine_handle where
  address : Ptr
  deriving DecidableEq, Repr

/-- Modelled from the spec: `detail::lnx::io_message` is declared in `detail/linux.hpp`,
which is not among the sources. The spec gives it as a pure data holder of a signed
integer result and the saved continuation. -/
structure io_message where
  result : Int
  awaitingCoroutine : Ptr
  deriving DecidableEq, Repr

/-- The `iovec` of `<sys/uio.h>`. -/
structure iovec where
  iov_base : Ptr
  iov_len : Nat
  deriving DecidableEq, Repr

/-- The `msghdr` of `<sys/socket.h>`. -/
structure msghdr where
  msg_name : Ptr
  msg_namelen : Nat
  msg_iov : Ptr
  msg_iovlen : Nat
  msg_control : Ptr
  msg_controllen : Nat
  msg_flags : Int
  deriving DecidableEq, Repr

/-- Result of `std::memset(&m_msghdr, 0, sizeof(m_msghdr))`. -/
def msghdr.zero : msghdr :=
  { msg_name := Ptr.null, msg_namelen := 0, msg_iov := Ptr.null, msg_iovlen := 0,
    msg_control := Ptr.null, msg_controllen := 0, msg_flags := 0 }

/-- Data members of `uring_operation_base` (lines 159-164). `self` is the identity of the
object; the reference `m_ioQueue` is the queue passed next to the object. -/
structure uring_operation_base where
  self : Nat
  m_offset : Nat
  m_awaitingCoroutine : coroutine_handle
  m_vec : iovec
  m_msghdr : msghdr
  m_message : io_message
  deriving DecidableEq, Repr

/-- Constructor of `uring_operation_base` (lines 38-43). `m_vec` and `m_msghdr` are not
initialised; what they hold is passed as `vec0` and `hdr0`. What the value-initialisation
`m_message{}` leaves in the message depends on the declaration of `io_message`, which is
not among the sources (zero members, or the values of default member initialisers); it
is passed as `msg0`. -/
def uring_operation_base.construct (self : Nat) (offset : Nat) (vec0 : iovec) (hdr0 : msghdr)
    (msg0 : io_message) : uring_operation_base :=
  { self := self, m_offset := offset, m_awaitingCoroutine := { address := Ptr.null },
    m_vec := vec0, m_msghdr := hdr0, m_message := msg0 }

/-- The object once the queue has written `result` into its message. -/
def uring_operation_base.with_result (b : uring_operation_base) (result : Int) :
    uring_operation_base :=
  { b with m_message := { b.m_message with result := result } }

/-- Member `get_result` of `uring_operation_base` (lines 149-157). -/
def uring_operation_base.get_result (b : uring_operation_base) : Except failure Nat :=
  if b.m_message.result < 0 then
    Except.error (failure.system_error (int_neg b.m_message.result))
  else
    Except.ok (to_size_t b.m_message.result)

/-! ## Submission descriptors and the queue -/

/-- Operation codes of `<linux/io_uring.h>` used by the layer. -/
inductive opcode where
  | IORING_OP_NOP
  | IORING_OP_READV
  | IORING_OP_WRITEV
  | IORING_OP_SENDMSG
  | IORING_OP_RECVMSG
  | IORING_OP_TIMEOUT
  | IORING_OP_ACCEPT
  | IORING_OP_ASYNC_CANCEL
  | IORING_OP_CONNECT
  | IORING_OP_CLOSE
  | IORING_OP_SEND
  | IORING_OP_RECV
  deriving DecidableEq, Repr

/-- Fields of `struct io_uring_sqe` the preparation helpers write. `addr2` shares its
storage with `off` in the kernel structure (used by accept for the length pointer);
`op_flags` is the union of `rw_flags`, `msg_flags`, `timeout_flags`, `accept_flags` and
`cancel_flags`; `user_data` is the correlation token. -/
structure io_uring_sqe where
  opcode : opcode
  fd : Int
  off : Nat
  addr2 : Ptr
  addr : Ptr
  len : Nat
  op_flags : Int
  user_data : Ptr
  deriving DecidableEq, Repr

/-- Helper `io_uring_prep_rw` of liburing's `liburing.h` (the library of the source's
time): it writes every field, the correlation token included, which it clears. -/
def io_uring_prep_rw (op : opcode) (_sqe : io_uring_sqe) (fd : Int) (addr : Ptr) (len : Nat)
    (offset : Nat) : io_uring_sqe :=
  { opcode := op, fd := fd, off := offset, addr2 := Ptr.null, addr := addr, len := len,
    op_flags := 0, user_data := Ptr.null }

/-- Helper `io_uring_prep_readv` of `liburing.h`. -/
def io_uring_prep_readv (sqe : io_uring_sqe) (fd : Int) (iovecs : Ptr) (nr_vecs : Nat)
    (offset : Nat) : io_uring_sqe :=
  io_uring_prep_rw opcode.IORING_OP_READV sqe fd iovecs nr_vecs offset

/-- Helper `io_uring_prep_writev` of `liburing.h`. -/
def io_uring_prep_writev (sqe : io_uring_sqe) (fd : Int) (iovecs : Ptr) (nr_vecs : Nat)
    (offset : Nat) : io_uring_sqe :=
  io_uring_prep_rw opcode.IORING_OP_WRITEV sqe fd iovecs nr_vecs offset

/-- Helper `io_uring_prep_send` of `liburing.h`. -/
def io_uring_prep_send (sqe : io_uring_sqe) (sockfd : Int) (buf : Ptr) (len : Nat)
    (flags : Int) : io_uring_sqe :=
  { io_uring_prep_rw opcode.IORING_OP_SEND sqe sockfd buf len 0 with op_flags := flags }

/-- Helper `io_uring_prep_sendmsg` of `liburing.h`. -/
def io_uring_prep_sendmsg (sqe : io_uring_sqe) (fd : Int) (msg : Ptr) (flags : Int) :
    io_uring_sqe :=
  { io_uring_prep_rw opcode.IORING_OP_SENDMSG sqe fd msg 1 0 with op_flags := flags }

/-- Helper `io_uring_prep_recv` of `liburing.h`. -/
def io_uring_prep_recv (sqe : io_uring_sqe) (sockfd : Int) (buf : Ptr) (len : Nat)
    (flags : Int) : io_uring_sqe :=
  { io_uring_prep_rw opcode.IORING_OP_RECV sqe sockfd buf len 0 with op_flags := flags }

/-- Helper `io_uring_prep_recvmsg` of `liburing.h`. -/
def io_uring_prep_recvmsg (sqe : io_uring_sqe) (fd : Int) (msg : Ptr) (flags : Int) :
    io_uring_sqe :=
  { io_uring_prep_rw opcode.IORING_OP_RECVMSG sqe fd msg 1 0 with op_flags := flags }

/-- Helper `io_uring_prep_connect` of `liburing.h`: the address length travels in `off`. -/
def io_uring_prep_connect (sqe : io_uring_sqe) (fd : Int) (addr : Ptr) (addrlen : Nat) :
    io_uring_sqe :=
  io_uring_prep_rw opcode.IORING_OP_CONNECT sqe fd addr 0 addrlen

/-- Helper `io_uring_prep_close` of `liburing.h`. -/
def io_uring_prep_close (sqe : io_uring_sqe) (fd : Int) : io_uring_sqe :=
  io_uring_prep_rw opcode.IORING_OP_CLOSE sqe fd Ptr.null 0 0

/-- Helper `io_uring_prep_accept` of `liburing.h`: the pointer to the address length
travels in the storage of `off`. -/
def io_uring_prep_accept (sqe : io_uring_sqe) (fd : Int) (addr : Ptr) (addrlen : Ptr)
    (flags : Int) : io_uring_sqe :=
  { io_uring_prep_rw opcode.IORING_OP_ACCEPT sqe fd addr 0 0 with
    addr2 := addrlen, op_flags := flags }

/-- Flag `IORING_TIMEOUT_ABS` of `<linux/io_uring.h>`. -/
def IORING_TIMEOUT_ABS : Int := 1

/-- Helper `io_uring_prep_timeout` of `liburing.h`. -/
def io_uring_prep_timeout (sqe : io_uring_sqe) (ts : Ptr) (count : Nat) (flags : Int) :
    io_uring_sqe :=
  { io_uring_prep_rw opcode.IORING_OP_TIMEOUT sqe (-1) ts 1 count with op_flags := flags }

/-- Helper `io_uring_prep_nop` of `liburing.h`. -/
def io_uring_prep_nop (sqe : io_uring_sqe) : io_uring_sqe :=
  io_uring_prep_rw opcode.IORING_OP_NOP sqe (-1) Ptr.null 0 0

/-- Helper `io_uring_prep_cancel` of `liburing.h`: the request to cancel is named by its
correlation token, which travels in `addr`. -/
def io_uring_prep_cancel (sqe : io_uring_sqe) (target : Ptr) (flags : Int) : io_uring_sqe :=
  { io_uring_prep_rw opcode.IORING_OP_ASYNC_CANCEL sqe (-1) target 0 0 with op_flags := flags }

/-- Helper `io_uring_sqe_set_data` of `liburing.h`: stores the correlation token. -/
def io_uring_sqe_set_data (sqe : io_uring_sqe) (data : Ptr) : io_uring_sqe :=
  { sqe with user_data := data }

/-- Modelled from the spec: `detail::lnx::io_queue` is declared in
`detail/linux_uring_queue.hpp`, which is not among the sources. The spec gives it two
calls: acquiring a descriptor slot, which fails if none is free, and `submit`, which
reports the count of descriptors accepted. `slots` are the free slots with what they last
held, `sq` the slots handed out so far (a pointer to a descriptor is its position in
`sq`), `reports` what the coming calls of `submit` return. -/
structure io_queue where
  slots : List io_uring_sqe
  sq : List io_uring_sqe
  reports : List Int
  deriving DecidableEq, Repr

/-- Modelled from the spec: `io_queue::get_sqe` (not among the sources) hands out the next
free slot, or nothing when none is free. -/
def io_queue.get_sqe (q : io_queue) : Option (Nat × io_queue) :=
  match q.slots with
  | [] => none
  | s :: rest => some (q.sq.length, { q with slots := rest, sq := q.sq ++ [s] })

/-- Writing through a descriptor pointer: the descriptor at `sqe` becomes `f` of it. -/
def io_queue.update (q : io_queue) (sqe : Nat) (f : io_uring_sqe → io_uring_sqe) : io_queue :=
  match q.sq.get? sqe with
  | none => q
  | some d => { q with sq := q.sq.set sqe (f d) }

/-- Modelled from the spec: `io_queue::submit` (not among the sources) reports the count
of descriptors accepted; a negative report is an error of the queue. -/
def io_queue.submit (q : io_queue) : Int × io_queue :=
  match q.reports with
  | [] => (0, q)
  | r :: rest => (r, { q with reports := rest })

/-! ## The submission wrapper: `uring_operation_base` -/

/-- What a member function of the wrapper leaves behind: the returned flag, the object and
the queue. -/
abbrev call_result (α : Type) := Option (α × uring_operation_base × io_queue)

/-- Private member `submitt` (lines 30-35). -/
def uring_operation_base.submitt (b : uring_operation_base) (q : io_queue) (sqe : Nat) :
    Int × uring_operation_base × io_queue :=
  let b1 := { b with m_message :=
    { b.m_message with awaitingCoroutine := b.m_awaitingCoroutine.address } }
  let q1 := q.update sqe (fun d => io_uring_sqe_set_data d (Ptr.message b.self))
  let r := q1.submit
  (r.1, b1, r.2)

/-- Member `try_start_read` (lines 45-52). A call that finds no free slot does not
return: the source writes through the pointer without a check. -/
def uring_operation_base.try_start_read (b : uring_operation_base) (q : io_queue) (fd : Int)
    (buffer : Ptr) (size : Nat) : call_result Bool :=
  let b1 := { b with m_vec := { iov_base := buffer, iov_len := size } }
  match q.get_sqe with
  | none => none
  | some (sqe, q1) =>
    let q2 := q1.update sqe (fun d => io_uring_prep_readv d fd (Ptr.vec b.self) 1 b1.m_offset)
    let r := b1.submitt q2 sqe
    some (decide (r.1 = (1 : Int)), r.2)

/-- Member `try_start_write` (lines 54-61). -/
def uring_operation_base.try_start_write (b : uring_operation_base) (q : io_queue) (fd : Int)
    (buffer : Ptr) (size : Nat) : call_result Bool :=
  let b1 := { b with m_vec := { iov_base := buffer, iov_len := size } }
  match q.get_sqe with
  | none => none
  | some (sqe, q1) =>
    let q2 := q1.update sqe (fun d => io_uring_prep_writev d fd (Ptr.vec b.self) 1 b1.m_offset)
    let r := b1.submitt q2 sqe
    some (decide (r.1 = (1 : Int)), r.2)

/-- Member `try_start_send` (lines 63-68). -/
def uring_operation_base.try_start_send (b : uring_operation_base) (q : io_queue) (fd : Int)
    (buffer : Ptr) (size : Nat) : call_result Bool :=
  match q.get_sqe with
  | none => none
  | some (sqe, q1) =>
    let q2 := q1.update sqe (fun d => io_uring_prep_send d fd buffer size 0)
    let r := b.submitt q2 sqe
    some (decide (r.1 = (1 : Int)), r.2)

/-- Member `try_start_sendto` (lines 70-83). -/
def uring_operation_base.try_start_sendto (b : uring_operation_base) (q : io_queue) (fd : Int)
    (dest : Ptr) (to_size : Nat) (buffer : Ptr) (size : Nat) : call_result Bool :=
  let b1 := { b with m_vec := { iov_base := buffer, iov_len := size } }
  let b2 := { b1 with m_msghdr := msghdr.zero }
  let b3 := { b2 with m_msghdr := { b2.m_msghdr with
    msg_name := dest, msg_namelen := to_size, msg_iov := Ptr.vec b.self, msg_iovlen := 1 } }
  match q.get_sqe with
  | none => none
  | some (sqe, q1) =>
    let q2 := q1.update sqe (fun d => io_uring_prep_sendmsg d fd (Ptr.msghdr b.self) 0)
    let r := b3.submitt q2 sqe
    some (decide (r.1 = (1 : Int)), r.2)

/-- Member `try_start_recv` (lines 85-90). -/
def uring_operation_base.try_start_recv (b : uring_operation_base) (q : io_queue) (fd : Int)
    (buffer : Ptr) (size : Nat) (flags : Int) : call_result Bool :=
  match q.get_sqe with
  | none => none
  | some (sqe, q1) =>
    let q2 := q1.update sqe (fun d => io_uring_prep_recv d fd buffer size flags)
    let r := b.submitt q2 sqe
    some (decide (r.1 = (1 : Int)), r.2)

/-- Member `try_start_recvfrom` (lines 92-105). -/
def uring_operation_base.try_start_recvfrom (b : uring_operation_base) (q : io_queue)
    (fd : Int) (src : Ptr) (from_size : Nat) (buffer : Ptr) (size : Nat) (flags : Int) :
    call_result Bool :=
  let b1 := { b with m_vec := { iov_base := buffer, iov_len := size } }
  let b2 := { b1 with m_msghdr := msghdr.zero }
  let b3 := { b2 with m_msghdr := { b2.m_msghdr with
    msg_name := src, msg_namelen := from_size, msg_iov := Ptr.vec b.self, msg_iovlen := 1 } }
  match q.get_sqe with
  | none => none
  | some (sqe, q1) =>
    let q2 := q1.update sqe (fun d => io_uring_prep_recvmsg d fd (Ptr.msghdr b.self) flags)
    let r := b3.submitt q2 sqe
    some (decide (r.1 = (1 : Int)), r.2)

/-- Member `try_start_connect` (lines 107-113). -/
def uring_operation_base.try_start_connect (b : uring_operation_base) (q : io_queue)
    (fd : Int) (dest : Ptr) (to_size : Nat) : call_result Bool :=
  match q.get_sqe with
  | none => none
  | some (sqe, q1) =>
    let q2 := q1.update sqe (fun d => io_uring_prep_connect d fd dest to_size)
    let r := b.submitt q2 sqe
    some (decide (r.1 = (1 : Int)), r.2)

/-- Member `try_start_disconnect` (lines 115-120). -/
def uring_operation_base.try_start_disconnect (b : uring_operation_base) (q : io_queue)
    (fd : Int) : call_result Bool :=
  match q.get_sqe with
  | none => none
  | some (sqe, q1) =>
    let q2 := q1.update sqe (fun d => io_uring_prep_close d fd)
    let r := b.submitt q2 sqe
    some (decide (r.1 = (1 : Int)), r.2)

/-- Member `try_start_accept` (lines 122-128). -/
def uring_operation_base.try_start_accept (b : uring_operation_base) (q : io_queue)
    (fd : Int) (dest : Ptr) (to_size : Ptr) : call_result Bool :=
  match q.get_sqe with
  | none => none
  | some (sqe, q1) =>
    let q2 := q1.update sqe (fun d => io_uring_prep_accept d fd dest to_size 0)
    let r := b.submitt q2 sqe
    some (decide (r.1 = (1 : Int)), r.2)

/-- Member `try_start_timeout` (lines 130-134). -/
def uring_operation_base.try_start_timeout (b : uring_operation_base) (q : io_queue)
    (ts : Ptr) (absolute : Bool) : call_result Bool :=
  match q.get_sqe with
  | none => none
  | some (sqe, q1) =>
    let q2 := q1.update sqe
      (fun d => io_uring_prep_timeout d ts 0 (if absolute then IORING_TIMEOUT_ABS else 0))
    let r := b.submitt q2 sqe
    some (decide (r.1 = (1 : Int)), r.2)

/-- Member `try_start_nop` (lines 136-140). -/
def uring_operation_base.try_start_nop (b : uring_operation_base) (q : io_queue) :
    call_result Bool :=
  match q.get_sqe with
  | none => none
  | some (sqe, q1) =>
    let q2 := q1.update sqe (fun d => io_uring_prep_nop d)
    let r := b.submitt q2 sqe
    some (decide (r.1 = (1 : Int)), r.2)

/-- Member `cancel_io` (lines 142-147): it calls the queue's `submit`, not `submitt`. -/
def uring_operation_base.cancel_io (b : uring_operation_base) (q : io_queue) : call_result Bool :=
  match q.get_sqe with
  | none => none
  | some (sqe, q1) =>
    let q2 := q1.update sqe (fun d => io_uring_prep_cancel d (Ptr.message b.self) 0)
    let r := q2.submit
    some (decide (r.1 = (1 : Int)), b, r.2)

/-- The calls `try_start_X` of the wrapper with their arguments. -/
inductive start_call where
  | read (fd : Int) (buffer : Ptr) (size : Nat)
  | write (fd : Int) (buffer : Ptr) (size : Nat)
  | send (fd : Int) (buffer : Ptr) (size : Nat)
  | sendto (fd : Int) (dest : Ptr) (to_size : Nat) (buffer : Ptr) (size : Nat)
  | recv (fd : Int) (buffer : Ptr) (size : Nat) (flags : Int)
  | recvfrom (fd : Int) (src : Ptr) (from_size : Nat) (buffer : Ptr) (size : Nat) (flags : Int)
  | connect (fd : Int) (dest : Ptr) (to_size : Nat)
  | disconnect (fd : Int)
  | accept (fd : Int) (dest : Ptr) (to_size : Ptr)
  | timeout (ts : Ptr) (absolute : Bool)
  | nop
  deriving DecidableEq, Repr

/-- The member function a `start_call` stands for, applied to its arguments. -/
def uring_operation_base.try_start_X (b : uring_operation_base) (q : io_queue) :
    start_call → call_result Bool
  | start_call.read fd buffer size => b.try_start_read q fd buffer size
  | start_call.write fd buffer size => b.try_start_write q fd buffer size
  | start_call.send fd buffer size => b.try_start_send q fd buffer size
  | start_call.sendto fd dest to_size buffer size =>
    b.try_start_sendto q fd dest to_size buffer size
  | start_call.recv fd buffer size flags => b.try_start_recv q fd buffer size flags
  | start_call.recvfrom fd src from_size buffer size flags =>
    b.try_start_recvfrom q fd src from_size buffer size flags
  | start_call.connect fd dest to_size => b.try_start_connect q fd dest to_size
  | start_call.disconnect fd => b.try_start_disconnect q fd
  | start_call.accept fd dest to_size => b.try_start_accept q fd dest to_size
  | start_call.timeout ts absolute => b.try_start_timeout q ts absolute
  | start_call.nop => b.try_start_nop q

/-! ## The concrete operation type -/

/-- What the member functions of a concrete operation type can reach: the wrapper part of
the object and the queue it refers to. The members the adapters add are private to them. -/
structure io_context where
  base : uring_operation_base
  queue : io_queue
  deriving DecidableEq, Repr

/-- The template parameter `OPERATION`: the members the adapters call on the concrete type,
`try_start`, `cancel` (cancellable adapter only) and `get_result`. -/
structure OPERATION where
  try_start : io_context → Bool × io_context
  cancel : io_context → io_context
  get_result : uring_operation_base → Except failure Nat

/-! ## The non-cancellable adapter: `uring_operation` -/

/-- Constructor of `uring_operation` (lines 171-174). -/
def uring_operation.construct (self : Nat) (offset : Nat) (vec0 : iovec) (hdr0 : msghdr)
    (msg0 : io_message) : uring_operation_base :=
  uring_operation_base.construct self offset vec0 hdr0 msg0

/-- Member `await_ready` of `uring_operation` (line 177). -/
def uring_operation.await_ready (_c : io_context) : Bool := false

/-- Member `await_suspend` of `uring_operation` (lines 180-186). -/
def uring_operation.await_suspend (OP : OPERATION) (c : io_context)
    (awaitingCoroutine : coroutine_handle) : Bool × io_context :=
  let c1 := { c with base := { c.base with m_awaitingCoroutine := awaitingCoroutine } }
  OP.try_start c1

/-- Member `await_resume` of `uring_operation` (line 188). -/
def uring_operation.await_resume (OP : OPERATION) (c : io_context) : Except failure Nat :=
  OP.get_result c.base

/-! ## The cancellable adapter: `uring_operation_cancellable` -/

/-- The enumeration `state` of `uring_operation_cancellable` (lines 328-334). -/
inductive state where
  | not_started
  | started
  | cancellation_requested
  | completed
  deriving DecidableEq, Repr

/-- Member `compare_exchange_strong` of `std::atomic<state>` on an atomic holding `cur`:
whether it exchanged, what the atomic holds afterwards, and what `expected` holds
afterwards. -/
def compare_exchange_strong (cur expected desired : state) : Bool × state × state :=
  if cur = expected then (true, desired, expected) else (false, cur, cur)

/-- Modelled from the spec: `cppcoro::cancellation_token` (`cancellation_token.hpp` is not
among the sources) answers two point-in-time queries, `is_cancellation_requested()` and
`can_be_cancelled()`. The record holds what the token answers now. -/
structure cancellation_token where
  can_be_cancelled : Bool
  is_cancellation_requested : Bool
  deriving DecidableEq, Repr

/-- A token that has been moved from: it refers to no source any more. -/
def cancellation_token.moved_from : cancellation_token :=
  { can_be_cancelled := false, is_cancellation_requested := false }

/-- Somebody requests cancellation on the source of the token: a token that can be
cancelled answers "requested" from now on. -/
def cancellation_token.signal (t : cancellation_token) : cancellation_token :=
  if t.can_be_cancelled then { t with is_cancellation_requested := true } else t

/-- Modelled from the spec: `cppcoro::cancellation_registration`
(`cancellation_registration.hpp` is not among the sources) binds a token to a callback,
which it invokes at most once. The only callback the source registers is the lambda of
lines 294-298, so the registration records the token alone. -/
structure cancellation_registration where
  token : cancellation_token
  deriving DecidableEq, Repr

/-- Data members of `uring_operation_cancellable` (lines 366-368) with the inherited
wrapper part. -/
structure uring_operation_cancellable where
  base : uring_operation_base
  m_state : state
  m_cancellationToken : cancellation_token
  m_cancellationRegistration : Option cancellation_registration
  deriving DecidableEq, Repr

/-- Count of the calls made on the concrete type, by the line of the call:
`try_start()` at line 250 and `cancel()` at lines 279, 297 and 362. -/
structure call_counts where
  try_start_250 : Nat
  cancel_279 : Nat
  cancel_297 : Nat
  cancel_362 : Nat
  deriving DecidableEq, Repr

/-- A cancellable operation in its surroundings: the object, the queue it refers to and
the calls made on the concrete type so far. -/
structure cancellable where
  op : uring_operation_cancellable
  queue : io_queue
  calls : call_counts
  deriving DecidableEq, Repr

/-- The constant `error_operation_aborted` (line 195). -/
def error_operation_aborted : Int := int_neg ECANCELED

/-- Constructors of `uring_operation_cancellable` (lines 198-204 and 206-213; the first
passes offset 0). -/
def uring_operation_cancellable.construct (self : Nat) (offset : Nat) (vec0 : iovec)
    (hdr0 : msghdr) (msg0 : io_message) (ct : cancellation_token) :
    uring_operation_cancellable :=
  let b := uring_operation_base.construct self offset vec0 hdr0 msg0
  { base := { b with m_message := { b.m_message with result := error_operation_aborted } },
    m_state := if ct.is_cancellation_requested then state.completed else state.not_started,
    m_cancellationToken := ct,
    m_cancellationRegistration := none }

/-- A freshly constructed cancellable operation referring to the queue `q`. -/
def cancellable.construct (q : io_queue) (self : Nat) (offset : Nat) (vec0 : iovec)
    (hdr0 : msghdr) (msg0 : io_message) (ct : cancellation_token) : cancellable :=
  { op := uring_operation_cancellable.construct self offset vec0 hdr0 msg0 ct,
    queue := q,
    calls := { try_start_250 := 0, cancel_279 := 0, cancel_297 := 0, cancel_362 := 0 } }

/-- Assignment `m_awaitingCoroutine = awaitingCoroutine` (line 226). -/
def cancellable.save_continuation (x : cancellable) (h : coroutine_handle) : cancellable :=
  { x with op := { x.op with base := { x.op.base with m_awaitingCoroutine := h } } }

/-- A store to `m_state`. -/
def cancellable.store (x : cancellable) (s : state) : cancellable :=
  { x with op := { x.op with m_state := s } }

/-- The call `static_cast<OPERATION*>(this)->try_start()` (line 250). -/
def cancellable.call_try_start (OP : OPERATION) (x : cancellable) : Bool × cancellable :=
  let r := OP.try_start { base := x.op.base, queue := x.queue }
  (r.1, { x with op := { x.op with base := r.2.base }, queue := r.2.queue,
                 calls := { x.calls with try_start_250 := x.calls.try_start_250 + 1 } })

/-- The effect of `static_cast<OPERATION*>(this)->cancel()` on the object and the queue. -/
def cancellable.run_cancel (OP : OPERATION) (x : cancellable) : cancellable :=
  let r := OP.cancel { base := x.op.base, queue := x.queue }
  { x with op := { x.op with base := r.base }, queue := r.queue }

/-- The call of `cancel()` at line 279, in `await_suspend`. -/
def cancellable.call_cancel_279 (OP : OPERATION) (x : cancellable) : cancellable :=
  let y := x.run_cancel OP
  { y with calls := { y.calls with cancel_279 := y.calls.cancel_279 + 1 } }

/-- The call of `cancel()` at line 297, in the registered callback. -/
def cancellable.call_cancel_297 (OP : OPERATION) (x : cancellable) : cancellable :=
  let y := x.run_cancel OP
  { y with calls := { y.calls with cancel_297 := y.calls.cancel_297 + 1 } }

/-- The call of `cancel()` at line 362, in `on_cancellation_requested`. -/
def cancellable.call_cancel_362 (OP : OPERATION) (x : cancellable) : cancellable :=
  let y := x.run_cancel OP
  { y with calls := { y.calls with cancel_362 := y.calls.cancel_362 + 1 } }

/-- The call `m_cancellationRegistration.emplace(std::move(m_cancellationToken), ...)`
(lines 293-298): the token moves into the registration. -/
def cancellable.emplace_registration (x : cancellable) : cancellable :=
  { x with op := { x.op with
      m_cancellationRegistration := some { token := x.op.m_cancellationToken },
      m_cancellationToken := cancellation_token.moved_from } }

/-- All calls of `cancel()` made on the concrete type so far. -/
def cancellable.cancel_calls (x : cancellable) : Nat :=
  x.calls.cancel_279 + x.calls.cancel_297 + x.calls.cancel_362

/-- Member `await_ready` of `uring_operation_cancellable` (lines 216-219). -/
def uring_operation_cancellable.await_ready (x : cancellable) : Bool :=
  decide (x.op.m_state = state.completed)

/-- Member `await_suspend` of `uring_operation_cancellable` (lines 222-306), run with no
other thread writing `m_state` or signalling the token during the call. `ndebug` says
whether the two `assert`s are compiled out; a failed `assert` ends the run with `none`. -/
def uring_operation_cancellable.await_suspend (OP : OPERATION) (ndebug : Bool)
    (x : cancellable) (awaitingCoroutine : coroutine_handle) : Option (Bool × cancellable) :=
  let x := x.save_continuation awaitingCoroutine
  if x.op.m_cancellationToken.is_cancellation_requested then
    some (false, x)
  else
    let canBeCancelled := x.op.m_cancellationToken.can_be_cancelled
    let x := x.store state.started
    let r := x.call_try_start OP
    let willCompleteAsynchronously := r.1
    let x := r.2
    if !willCompleteAsynchronously then
      some (false, x)
    else if canBeCancelled then
      let c1 := compare_exchange_strong x.op.m_state state.not_started state.started
      let x := x.store c1.2.1
      let oldState := c1.2.2
      if !c1.1 then
        if oldState = state.cancellation_requested then
          let x := x.call_cancel_279 OP
          let c2 := compare_exchange_strong x.op.m_state oldState state.started
          let x := x.store c2.2.1
          let oldState := c2.2.2
          if !c2.1 then
            if ndebug || decide (oldState = state.completed) then some (false, x) else none
          else
            some (true, x)
        else
          let x := x.emplace_registration
          if ndebug || decide (oldState = state.started) then some (true, x) else none
      else
        some (true, x)
    else
      some (true, x)

/-- The lambda registered as cancellation callback (lines 294-298). -/
def uring_operation_cancellable.registered_callback (OP : OPERATION) (x : cancellable) :
    cancellable :=
  let x := x.store state.cancellation_requested
  x.call_cancel_297 OP

/-- Member `await_resume` of `uring_operation_cancellable` (lines 308-325). -/
def uring_operation_cancellable.await_resume (OP : OPERATION) (x : cancellable) :
    Except failure Nat :=
  if x.op.base.m_message.result = error_operation_aborted then
    Except.error failure.operation_cancelled
  else if x.op.base.m_message.result < 0 then
    if x.op.base.m_message.result = int_neg EINTR ∧
        x.op.m_state = state.cancellation_requested then
      Except.error failure.operation_cancelled
    else
      Except.error (failure.system_error (int_neg x.op.base.m_message.result))
  else
    OP.get_result x.op.base

/-- Private member `on_cancellation_requested` (lines 336-364). `at_cas` is what `m_state`
holds when the compare-exchange of line 348 runs: the value loaded at line 338 unless
another thread has written the state in between. -/
def uring_operation_cancellable.on_cancellation_requested (OP : OPERATION) (at_cas : state)
    (x : cancellable) : cancellable :=
  let oldState := x.op.m_state
  if oldState = state.not_started then
    let c := compare_exchange_strong at_cas oldState state.cancellation_requested
    let x := x.store c.2.1
    let oldState := c.2.2
    let transferredCancelResponsibility := c.1
    if transferredCancelResponsibility then
      x
    else if oldState ≠ state.completed then
      x.call_cancel_362 OP
    else
      x
  else if oldState ≠ state.completed then
    x.call_cancel_362 OP
  else
    x

/-! ## The cancellable adapter step by step

`await_suspend` and the registered callback cut at their accesses to `m_state` and to the
token, so that the callback, a request for cancellation, the delivery of the completion
record and writes of other parties can fall between any two of them. -/

/-- Where the thread running `await_suspend` stands: before the call (`entry`), before the
statement of the given line, after `return`, or stopped by a failed `assert`. -/
inductive hook_pc where
  | entry
  | L246
  | L250
  | L267
  | L279
  | L281
  | L293
  | L299
  | returned (r : Bool)
  | aborted
  deriving DecidableEq, Repr

/-- Where the registered callback stands: not invoked, before its call of `cancel()`
(line 297), or done. -/
inductive callback_pc where
  | idle
  | L297
  | finished
  deriving DecidableEq, Repr

/-- The argument and the locals of `await_suspend` with its position. -/
structure hook_frame where
  awaitingCoroutine : coroutine_handle
  canBeCancelled : Bool
  oldState : state
  pc : hook_pc
  deriving DecidableEq, Repr

/-- The operation, the thread in `await_suspend` and the callback of the registration. -/
structure Sys where
  x : cancellable
  hook : hook_frame
  callback : callback_pc
  deriving DecidableEq, Repr

/-- The system when `await_suspend(awaitingCoroutine)` is about to be called on `x`. -/
def Sys.init (x : cancellable) (awaitingCoroutine : coroutine_handle) : Sys :=
  { x := x,
    hook := { awaitingCoroutine := awaitingCoroutine, canBeCancelled := false,
              oldState := state.not_started, pc := hook_pc.entry },
    callback := callback_pc.idle }

/-- The thread in `await_suspend` at a new position. -/
def Sys.goto (s : Sys) (pc : hook_pc) : Sys := { s with hook := { s.hook with pc := pc } }

/-- One step of `await_suspend` (lines 222-306); `none` once it has returned or stopped. -/
def await_suspend_step (OP : OPERATION) (ndebug : Bool) (s : Sys) : Option Sys :=
  match s.hook.pc with
  | hook_pc.entry =>
    -- lines 226 and 241-244
    let x := s.x.save_continuation s.hook.awaitingCoroutine
    if x.op.m_cancellationToken.is_cancellation_requested then
      some ({ s with x := x }.goto (hook_pc.returned false))
    else
      some ({ s with x := x }.goto hook_pc.L246)
  | hook_pc.L246 =>
    -- lines 246-247
    some { s with
      x := s.x.store state.started,
      hook := { s.hook with canBeCancelled := s.x.op.m_cancellationToken.can_be_cancelled,
                            pc := hook_pc.L250 } }
  | hook_pc.L250 =>
    -- lines 250-257
    let r := s.x.call_try_start OP
    if !r.1 then
      some ({ s with x := r.2 }.goto (hook_pc.returned false))
    else if s.hook.canBeCancelled then
      some ({ s with x := r.2 }.goto hook_pc.L267)
    else
      some ({ s with x := r.2 }.goto (hook_pc.returned true))
  | hook_pc.L267 =>
    -- lines 266-273 and 291
    let c := compare_exchange_strong s.x.op.m_state state.not_started state.started
    let s1 := { s with x := s.x.store c.2.1, hook := { s.hook with oldState := c.2.2 } }
    if !c.1 then
      if c.2.2 = state.cancellation_requested then
        some (s1.goto hook_pc.L279)
      else
        some (s1.goto hook_pc.L293)
    else
      some (s1.goto (hook_pc.returned true))
  | hook_pc.L279 =>
    -- line 279
    some ({ s with x := s.x.call_cancel_279 OP }.goto hook_pc.L281)
  | hook_pc.L281 =>
    -- lines 281-289
    let c := compare_exchange_strong s.x.op.m_state s.hook.oldState state.started
    let s1 := { s with x := s.x.store c.2.1, hook := { s.hook with oldState := c.2.2 } }
    if !c.1 then
      if ndebug || decide (c.2.2 = state.completed) then
        some (s1.goto (hook_pc.returned false))
      else
        some (s1.goto hook_pc.aborted)
    else
      some (s1.goto (hook_pc.returned true))
  | hook_pc.L293 =>
    -- lines 293-298
    some ({ s with x := s.x.emplace_registration }.goto hook_pc.L299)
  | hook_pc.L299 =>
    -- lines 299-300
    if ndebug || decide (s.hook.oldState = state.started) then
      some (s.goto (hook_pc.returned true))
    else
      some (s.goto hook_pc.aborted)
  | hook_pc.returned _ => none
  | hook_pc.aborted => none

/-- One step of the registered callback (lines 294-298). The registration invokes it once
its token answers "requested", and at most once. -/
def callback_step (OP : OPERATION) (s : Sys) : Option Sys :=
  match s.callback with
  | callback_pc.idle =>
    match s.x.op.m_cancellationRegistration with
    | none => none
    | some r =>
      if r.token.is_cancellation_requested then
        -- lines 295-296
        some { s with x := s.x.store state.cancellation_requested, callback := callback_pc.L297 }
      else
        none
  | callback_pc.L297 =>
    -- line 297
    some { s with x := s.x.call_cancel_297 OP, callback := callback_pc.finished }
  | callback_pc.finished => none

/-- Cancellation is requested on the source of the operation's token, wherever the token
is by now: still in the operation, or moved into the registration. -/
def cancellable.request_cancellation (x : cancellable) : cancellable :=
  { x with op := { x.op with
      m_cancellationToken := x.op.m_cancellationToken.signal,
      m_cancellationRegistration :=
        x.op.m_cancellationRegistration.map (fun r => { token := r.token.signal }) } }

/-- The queue writes the result of the completion record into the message. -/
def cancellable.deliver (x : cancellable) (result : Int) : cancellable :=
  { x with op := { x.op with base := { x.op.base with
      m_message := { x.op.base.m_message with result := result } } } }

/-- What can happen next: a step of `await_suspend`, a step of the registered callback, a
request for cancellation, the delivery of the completion record, a call of `await_ready`
or of `await_resume`, and a store to `m_state` by a party other than the adapter (the
spec lets the queue mark the operation `completed`). -/
inductive action where
  | hook
  | callback
  | request_cancellation
  | deliver (result : Int)
  | await_ready
  | await_resume
  | foreign_store (s : state)
  deriving DecidableEq, Repr

/-- Actions of the adapter and its collaborators as the source has them: every action but
a store to `m_state` from outside the adapter. -/
def action.of_source : action → Bool
  | action.foreign_store _ => false
  | _ => true

/-- The system after an action; `none` if the action cannot happen now. `await_ready` and
`await_resume` read the object and write nothing. -/
def step (OP : OPERATION) (ndebug : Bool) (a : action) (s : Sys) : Option Sys :=
  match a with
  | action.hook => await_suspend_step OP ndebug s
  | action.callback => callback_step OP s
  | action.request_cancellation => some { s with x := s.x.request_cancellation }
  | action.deliver result => some { s with x := s.x.deliver result }
  | action.await_ready => some s
  | action.await_resume => some s
  | action.foreign_store st => some { s with x := s.x.store st }

/-- The system after a sequence of actions. -/
def run (OP : OPERATION) (ndebug : Bool) : List action → Sys → Option Sys
  | [], s => some s
  | a :: rest, s =>
    match step OP ndebug a s with
    | none => none
    | some s1 => run OP ndebug rest s1

/-- What a finished `await_suspend` leaves: the returned flag and the operation. -/
def Sys.outcome (s : Sys) : Option (Bool × cancellable) :=
  match s.hook.pc with
  | hook_pc.returned r => some (r, s.x)
  | _ => none

/-- The steps of `await_suspend` one after the other with nothing in between, at most
`fuel` of them. -/
def run_hook (OP : OPERATION) (ndebug : Bool) : Nat → Sys → Sys
  | 0, s => s
  | fuel + 1, s =>
    match await_suspend_step OP ndebug s with
    | none => s
    | some s1 => run_hook OP ndebug fuel s1

/-! ## Operation types of `net/socket_recv_operation.hpp` -/

/-- Modelled from the spec: `socket_recv_operation_impl` is declared in
`net/socket_recv_operation.hpp` and its members are defined in a file that is not among
the sources. The spec gives the per-resource wrappers as choosing the `try_start_X` call
and the place of the buffer: `try_start` is the wrapper's receive, `cancel` its
`cancel_io`, `get_result` its `get_result`. A call that finds no free slot is given as a
submission that was not accepted. -/
def socket_recv_operation_impl (fd : Int) (buffer : Ptr) (byteCount : Nat) : OPERATION :=
  { try_start := fun c =>
      match c.base.try_start_recv c.queue fd buffer byteCount 0 with
      | some r => (r.1, { base := r.2.1, queue := r.2.2 })
      | none => (false, c),
    cancel := fun c =>
      match c.base.cancel_io c.queue with
      | some r => { base := r.2.1, queue := r.2.2 }
      | none => c,
    get_result := fun b => b.get_result }

/-! ## The `co_await` expression -/

/-- What a `co_await` on an awaiter comes to before control leaves the awaiting coroutine:
the coroutine stays suspended until somebody resumes it, or it goes on at once with what
`await_resume` gives. `σ` is the awaiter with its surroundings. -/
inductive awaited (σ : Type) where
  | suspended (after : σ)
  | resumed (result : Except failure Nat) (after : σ)

/-- The expression `co_await op` on a `uring_operation` by the rule of the language for an
`await_suspend` that returns `bool`: `await_ready()`; if false, `await_suspend(h)`; if
that returns false or `await_ready()` was true, `await_resume()` at once. -/
def uring_operation.co_await (OP : OPERATION) (c : io_context) (h : coroutine_handle) :
    awaited io_context :=
  if uring_operation.await_ready c then
    awaited.resumed (uring_operation.await_resume OP c) c
  else
    let r := uring_operation.await_suspend OP c h
    if r.1 then awaited.suspended r.2
    else awaited.resumed (uring_operation.await_resume OP r.2) r.2

/-- The expression `co_await op` on a `uring_operation_cancellable`, by the same rule, with
no other thread acting during the call; `none` when an `assert` fails. -/
def uring_operation_cancellable.co_await (OP : OPERATION) (ndebug : Bool) (x : cancellable)
    (h : coroutine_handle) : Option (awaited cancellable) :=
  if uring_operation_cancellable.await_ready x then
    some (awaited.resumed (uring_operation_cancellable.await_resume OP x) x)
  else
    match uring_operation_cancellable.await_suspend OP ndebug x h with
    | none => none
    | some r =>
      if r.1 then some (awaited.suspended r.2)
      else some (awaited.resumed (uring_operation_cancellable.await_resume OP r.2) r.2)

/-! ## Invariants of the step machine -/

/-- Who has called `cancel()` so far, read off the positions of the two threads: the call
of line 279 has been made exactly when `await_suspend` is past it, and then nothing is
registered; the call of line 297 has been made exactly when the callback is done, and the
callback runs only with a registration; line 362 is never reached. -/
def cancel_ledger (s : Sys) : Prop :=
  s.x.calls.cancel_362 = 0 ∧
  (match s.hook.pc with
   | hook_pc.L281 => s.x.calls.cancel_279 = 1 ∧ s.x.op.m_cancellationRegistration = none
   | hook_pc.L299 => s.x.calls.cancel_279 = 0
   | hook_pc.returned _ =>
     s.x.calls.cancel_279 ≤ 1 ∧
     (s.x.calls.cancel_279 = 1 → s.x.op.m_cancellationRegistration = none)
   | hook_pc.aborted =>
     s.x.calls.cancel_279 ≤ 1 ∧
     (s.x.calls.cancel_279 = 1 → s.x.op.m_cancellationRegistration = none)
   | _ => s.x.calls.cancel_279 = 0 ∧ s.x.op.m_cancellationRegistration = none) ∧
  (match s.callback with
   | callback_pc.idle => s.x.calls.cancel_297 = 0
   | callback_pc.L297 =>
     s.x.calls.cancel_297 = 0 ∧ s.x.op.m_cancellationRegistration ≠ none
   | callback_pc.finished =>
     s.x.calls.cancel_297 = 1 ∧ s.x.op.m_cancellationRegistration ≠ none)

/-- A `completed` state comes from the constructor alone: the token was signaled then and
is so still, nothing is registered, the callback has not run, and `await_suspend` has not
been called or has returned false at its first check. -/
def completed_by_constructor (s : Sys) : Prop :=
  s.x.op.m_state = state.completed →
    s.x.op.m_cancellationToken.is_cancellation_requested = true ∧
    s.x.op.m_cancellationRegistration = none ∧
    s.callback = callback_pc.idle ∧
    (s.hook.pc = hook_pc.entry ∨ s.hook.pc = hook_pc.returned false)

/-- A message with every member zero. -/
def zeroed_message : io_message := { result := 0, awaitingCoroutine := Ptr.null }

/-- A blank descriptor slot. -/
def blank_sqe : io_uring_sqe :=
  { opcode := opcode.IORING_OP_NOP, fd := 0, off := 0, addr2 := Ptr.null, addr := Ptr.null,
    len := 0, op_flags := 0, user_data := Ptr.null }

/-- A queue with two free slots whose coming calls of `submit` report the given counts. -/
def queue_reporting (reports : List Int) : io_queue :=
  { slots := [blank_sqe, blank_sqe], sq := [], reports := reports }

/-- A queue with no free slot whose coming calls of `submit` report the given counts. -/
def queue_without_slot (reports : List Int) : io_queue :=
  { slots := [], sq := [], reports := reports }

/-- A token that can be cancelled and is not signaled. -/
def token_armed : cancellation_token :=
  { can_be_cancelled := true, is_cancellation_requested := false }

/-- A token that is signaled. -/
def token_signaled : cancellation_token :=
  { can_be_cancelled := true, is_cancellation_requested := true }

/-- A token that cannot be cancelled. -/
def token_none : cancellation_token :=
  { can_be_cancelled := false, is_cancellation_requested := false }

/-- A cancellable receive of 10 bytes on descriptor 3, object 7, freshly constructed with
the token `ct` on the queue `q`. -/
def recv_cancellable (q : io_queue) (ct : cancellation_token) : cancellable :=
  cancellable.construct q 7 0 ⟨Ptr.null, 0⟩ msghdr.zero zeroed_message ct

/-- The concrete operation type of `recv_cancellable`. -/
def recv_op : OPERATION := socket_recv_operation_impl 3 (Ptr.caller 100) 10

/-- The handle of the awaiting coroutine in the examples. -/
def awaiter : coroutine_handle := { address := Ptr.caller 500 }

/-- A non-cancellable receive of 10 bytes on descriptor 3, object 7, freshly constructed on
the queue `q`, with `msg0` in its message. -/
def recv_plain (q : io_queue) (msg0 : io_message) : io_context :=
  { base := uring_operation.construct 7 0 ⟨Ptr.null, 0⟩ msghdr.zero msg0, queue := q }

/-- A schedule: `await_suspend` runs to its end, then cancellation is requested and the
registered callback runs. -/
def schedule_callback_cancels : List action :=
  [action.hook, action.hook, action.hook, action.hook, action.hook, action.hook,
   action.request_cancellation, action.callback, action.callback]

/-- A schedule: while `await_suspend` is between `try_start()` and its compare-exchange,
another party sets the state to `cancellation_requested`. -/
def schedule_hook_cancels : List action :=
  [action.hook, action.hook, action.hook,
   action.foreign_store state.cancellation_requested,
   action.hook, action.hook, action.hook, action.request_cancellation]

/-- A schedule for an operation constructed with a signaled token: `await_ready` is asked
and, against the rule of `co_await`, `await_suspend` is called all the same. -/
def schedule_pre_cancelled : List action :=
  [action.await_ready, action.hook, action.await_resume]

/-! # Theorems -/

/-! ## Machine integers -/

theorem int_neg_of_gt_min {x : Int} (h1 : INT_MIN < x) (h2 : x ≤ INT_MAX) : int_neg x = -x := by
  unfold int_neg wrap_int
  unfold INT_MIN at h1
  unfold INT_MAX at h2
  omega

theorem to_size_t_of_nonneg {x : Int} (h1 : 0 ≤ x) (h2 : x ≤ INT_MAX) :
    to_size_t x = x.toNat := by
  unfold to_size_t
  unfold INT_MAX at h2
  congr 1
  omega

theorem error_operation_aborted_eq : error_operation_aborted = -125 := by decide

theorem int_neg_EINTR : int_neg EINTR = -4 := by decide

/-! ## Result extraction -/

theorem get_result_of_nonneg (b : uring_operation_base) (hpos : 0 ≤ b.m_message.result)
    (hhi : b.m_message.result ≤ INT_MAX) :
    b.get_result = Except.ok b.m_message.result.toNat := by
  have hn : ¬ b.m_message.result < 0 := by omega
  simp [uring_operation_base.get_result, hn, to_size_t_of_nonneg hpos hhi]

/-- C2 (counterexample): for the message result `INT_MIN`, a value of the result's type,
`get_result` fails with an error code that is not the absolute value of the result and is
not positive: the code is `INT_MIN` itself. -/
theorem get_result_int_min_counterexample :
    is_int INT_MIN ∧ INT_MIN < 0 ∧
    ((uring_operation_base.construct 0 0 ⟨Ptr.null, 0⟩ msghdr.zero zeroed_message).with_result
        INT_MIN).get_result = Except.error (failure.system_error (-2147483648)) ∧
    ((uring_operation_base.construct 0 0 ⟨Ptr.null, 0⟩ msghdr.zero zeroed_message).with_result
        INT_MIN).get_result ≠ Except.error (failure.system_error (-INT_MIN)) := by
  refine ⟨by decide, by decide, rfl, ?_⟩
  intro h
  injection h with h
  injection h with h
  revert h
  decide

/-- C2 (amended): for every message result `r` of the type `int`, `get_result` fails if
and only if `r < 0`; for `r < 0` it fails with an OS error, whose code is `-r`, a positive
code, whenever `r` is above `INT_MIN`; for `r ≥ 0` it returns `r` unchanged as an unsigned
count. -/
theorem get_result_spec (b : uring_operation_base) (h : is_int b.m_message.result) :
    (b.m_message.result < 0 →
      b.get_result = Except.error (failure.system_error (int_neg b.m_message.result))) ∧
    (b.m_message.result < 0 → INT_MIN < b.m_message.result →
      b.get_result = Except.error (failure.system_error (-b.m_message.result)) ∧
      0 < -b.m_message.result ∧ is_int (-b.m_message.result)) ∧
    (0 ≤ b.m_message.result → b.get_result = Except.ok b.m_message.result.toNat ∧
      (b.m_message.result.toNat : Int) = b.m_message.result) ∧
    ((∃ e, b.get_result = Except.error e) ↔ b.m_message.result < 0) := by
  obtain ⟨hlo, hhi⟩ := h
  refine ⟨?_, ?_, ?_, ?_⟩
  · intro hneg
    simp [uring_operation_base.get_result, hneg]
  · intro hneg hmin
    have e : int_neg b.m_message.result = -b.m_message.result := int_neg_of_gt_min hmin hhi
    refine ⟨by simp [uring_operation_base.get_result, hneg, e], by omega, ?_⟩
    unfold is_int INT_MIN INT_MAX
    unfold INT_MIN at hmin
    constructor <;> omega
  · intro hpos
    exact ⟨get_result_of_nonneg b hpos hhi, Int.toNat_of_nonneg hpos⟩
  · constructor
    · rintro ⟨e, he⟩
      by_contra hn
      simp [uring_operation_base.get_result, hn] at he
    · intro hneg
      exact ⟨failure.system_error (int_neg b.m_message.result),
        by simp [uring_operation_base.get_result, hneg]⟩

/-- C2 (witness): a connect that ends with the message result −111 fails with the OS error
of code 111, and a read that ends with the message result 10 returns the count 10. -/
theorem get_result_spec_witness :
    ((uring_operation_base.construct 0 0 ⟨Ptr.null, 0⟩ msghdr.zero zeroed_message).with_result
        (-111)).get_result = Except.error (failure.system_error 111) ∧
    ((uring_operation_base.construct 0 0 ⟨Ptr.null, 0⟩ msghdr.zero zeroed_message).with_result
        10).get_result = Except.ok 10 :=
  ⟨((get_result_spec ((uring_operation_base.construct 0 0 ⟨Ptr.null, 0⟩ msghdr.zero zeroed_message).with_result
        (-111)) (by decide)).2.1 (by decide) (by decide)).1,
   ((get_result_spec ((uring_operation_base.construct 0 0 ⟨Ptr.null, 0⟩ msghdr.zero zeroed_message).with_result
        10) (by decide)).2.2.1 (by decide)).1⟩

/-! ## Resume hook of the cancellable adapter -/

/-- C1 (counterexample): with the message result `INT_MIN`, which is negative and neither
the sentinel nor `-EINTR`, the resume hook fails with an OS error whose code is not `-r`:
the code is `INT_MIN` itself. -/
theorem await_resume_int_min_counterexample :
    is_int INT_MIN ∧ INT_MIN < 0 ∧ INT_MIN ≠ -ECANCELED ∧ INT_MIN ≠ -EINTR ∧
    uring_operation_cancellable.await_resume recv_op
        ((recv_cancellable (queue_reporting []) token_armed).deliver INT_MIN)
      = Except.error (failure.system_error (-2147483648)) ∧
    uring_operation_cancellable.await_resume recv_op
        ((recv_cancellable (queue_reporting []) token_armed).deliver INT_MIN)
      ≠ Except.error (failure.system_error (-INT_MIN)) := by
  refine ⟨by decide, by decide, by decide, by decide, rfl, ?_⟩
  intro h
  injection h with h
  injection h with h
  revert h
  decide

/-- C1 (amended): for every message result `r` of the type `int` and every cancellation
state `s`, the resume hook fails with `operation_cancelled` if `r` is the sentinel
`-ECANCELED`, and if `r` is `-EINTR` while `s` is `cancellation_requested`; for every other
negative `r` it fails with an OS error, whose code is `-r` whenever `r` is above `INT_MIN`;
for every `r ≥ 0` it returns the concrete type's `get_result()`, which is the count `r`
when the concrete type uses the wrapper's `get_result`. -/
theorem await_resume_spec (OP : OPERATION) (x : cancellable)
    (h : is_int x.op.base.m_message.result) :
    (x.op.base.m_message.result = -ECANCELED →
      uring_operation_cancellable.await_resume OP x
        = Except.error failure.operation_cancelled) ∧
    (x.op.base.m_message.result = -EINTR → x.op.m_state = state.cancellation_requested →
      uring_operation_cancellable.await_resume OP x
        = Except.error failure.operation_cancelled) ∧
    (x.op.base.m_message.result < 0 → x.op.base.m_message.result ≠ -ECANCELED →
      ¬ (x.op.base.m_message.result = -EINTR ∧ x.op.m_state = state.cancellation_requested) →
      uring_operation_cancellable.await_resume OP x
        = Except.error (failure.system_error (int_neg x.op.base.m_message.result)) ∧
      (INT_MIN < x.op.base.m_message.result →
        uring_operation_cancellable.await_resume OP x
          = Except.error (failure.system_error (-x.op.base.m_message.result)))) ∧
    (0 ≤ x.op.base.m_message.result →
      uring_operation_cancellable.await_resume OP x = OP.get_result x.op.base ∧
      (OP.get_result = uring_operation_base.get_result →
        uring_operation_cancellable.await_resume OP x
          = Except.ok x.op.base.m_message.result.toNat)) := by
  have hab : error_operation_aborted = -125 := error_operation_aborted_eq
  have hin : int_neg EINTR = -4 := int_neg_EINTR
  refine ⟨?_, ?_, ?_, ?_⟩
  · intro hr
    unfold ECANCELED at hr
    simp [uring_operation_cancellable.await_resume, hab, hr]
  · intro hr hs
    unfold EINTR at hr
    simp [uring_operation_cancellable.await_resume, hab, hin, hr, hs]
  · intro hneg hne hnot
    unfold ECANCELED at hne
    unfold EINTR at hnot
    have e1 : uring_operation_cancellable.await_resume OP x
        = Except.error (failure.system_error (int_neg x.op.base.m_message.result)) := by
      unfold uring_operation_cancellable.await_resume
      rw [hab, hin, if_neg hne, if_pos hneg, if_neg hnot]
    refine ⟨e1, ?_⟩
    intro hmin
    rw [e1, int_neg_of_gt_min hmin h.2]
  · intro hpos
    have hne : x.op.base.m_message.result ≠ -125 := by omega
    have hn : ¬ x.op.base.m_message.result < 0 := by omega
    have e1 : uring_operation_cancellable.await_resume OP x = OP.get_result x.op.base := by
      unfold uring_operation_cancellable.await_resume
      rw [hab, if_neg hne, if_neg hn]
    refine ⟨e1, ?_⟩
    intro hg
    rw [e1, hg]
    exact get_result_of_nonneg x.op.base hpos h.2

/-- C1 (witness): the four outcomes at concrete results: the sentinel −125 in state
`started`, −4 in state `cancellation_requested`, −111 and 10 in state `started`. -/
theorem await_resume_spec_witness :
    uring_operation_cancellable.await_resume recv_op
        (((recv_cancellable (queue_reporting []) token_armed).store state.started).deliver (-125))
      = Except.error failure.operation_cancelled ∧
    uring_operation_cancellable.await_resume recv_op
        (((recv_cancellable (queue_reporting []) token_armed).store
          state.cancellation_requested).deliver (-4))
      = Except.error failure.operation_cancelled ∧
    uring_operation_cancellable.await_resume recv_op
        (((recv_cancellable (queue_reporting []) token_armed).store state.started).deliver (-111))
      = Except.error (failure.system_error 111) ∧
    uring_operation_cancellable.await_resume recv_op
        (((recv_cancellable (queue_reporting []) token_armed).store state.started).deliver 10)
      = Except.ok 10 :=
  ⟨(await_resume_spec recv_op
      (((recv_cancellable (queue_reporting []) token_armed).store state.started).deliver (-125))
      (by decide)).1 (by decide),
   (await_resume_spec recv_op
      (((recv_cancellable (queue_reporting []) token_armed).store
        state.cancellation_requested).deliver (-4))
      (by decide)).2.1 (by decide) (by decide),
   ((await_resume_spec recv_op
      (((recv_cancellable (queue_reporting []) token_armed).store state.started).deliver (-111))
      (by decide)).2.2.1 (by decide) (by decide) (by decide)).2 (by decide),
   ((await_resume_spec recv_op
      (((recv_cancellable (queue_reporting []) token_armed).store state.started).deliver 10)
      (by decide)).2.2.2 (by decide)).2 rfl⟩

/-! ## The non-cancellable adapter -/

/-- C6: for every operation of the non-cancellable adapter, `await_ready` returns false;
`await_suspend` calls the concrete `try_start()` on the object in which the awaiting
continuation is already saved and returns exactly what `try_start()` returned, so that the
`co_await` suspends when the submission was accepted and otherwise resumes at once with
`get_result()`; `await_resume` is exactly the concrete `get_result()` on the message as it
is, which for the wrapper's `get_result` is the count for a result `r ≥ 0` and an OS error
for `r < 0`. -/
theorem uring_operation_contract (OP : OPERATION) (c : io_context) (h : coroutine_handle) :
    uring_operation.await_ready c = false ∧
    uring_operation.await_suspend OP c h
      = OP.try_start { c with base := { c.base with m_awaitingCoroutine := h } } ∧
    ((OP.try_start { c with base := { c.base with m_awaitingCoroutine := h } }).1 = true →
      uring_operation.co_await OP c h = awaited.suspended
        (OP.try_start { c with base := { c.base with m_awaitingCoroutine := h } }).2) ∧
    ((OP.try_start { c with base := { c.base with m_awaitingCoroutine := h } }).1 = false →
      uring_operation.co_await OP c h = awaited.resumed
        (OP.get_result
          (OP.try_start { c with base := { c.base with m_awaitingCoroutine := h } }).2.base)
        (OP.try_start { c with base := { c.base with m_awaitingCoroutine := h } }).2) ∧
    uring_operation.await_resume OP c = OP.get_result c.base ∧
    (OP.get_result = uring_operation_base.get_result → is_int c.base.m_message.result →
      (0 ≤ c.base.m_message.result →
        uring_operation.await_resume OP c = Except.ok c.base.m_message.result.toNat) ∧
      (c.base.m_message.result < 0 →
        uring_operation.await_resume OP c
          = Except.error (failure.system_error (int_neg c.base.m_message.result)))) := by
  refine ⟨rfl, rfl, ?_, ?_, rfl, ?_⟩
  · intro ht
    simp [uring_operation.co_await, uring_operation.await_ready,
      uring_operation.await_suspend, ht]
  · intro ht
    simp [uring_operation.co_await, uring_operation.await_ready,
      uring_operation.await_suspend, uring_operation.await_resume, ht]
  · intro hg hi
    refine ⟨?_, ?_⟩
    · intro hpos
      simp only [uring_operation.await_resume, hg]
      exact get_result_of_nonneg c.base hpos hi.2
    · intro hneg
      simp [uring_operation.await_resume, hg, uring_operation_base.get_result, hneg]

/-- C6 (witness): a receive whose submission is accepted suspends with the continuation
bound into the message; the same receive on a queue that accepts nothing resumes at once;
and `await_resume` on a message holding 10 returns the count 10. -/
theorem uring_operation_contract_witness :
    uring_operation.co_await recv_op (recv_plain (queue_reporting [1]) zeroed_message) awaiter
      = awaited.suspended
          (recv_op.try_start { recv_plain (queue_reporting [1]) zeroed_message with
            base := { (recv_plain (queue_reporting [1]) zeroed_message).base with
              m_awaitingCoroutine := awaiter } }).2 ∧
    (recv_op.try_start { recv_plain (queue_reporting [1]) zeroed_message with
        base := { (recv_plain (queue_reporting [1]) zeroed_message).base with
          m_awaitingCoroutine := awaiter } }).2.base.m_message.awaitingCoroutine
      = Ptr.caller 500 ∧
    uring_operation.await_resume recv_op
        { recv_plain (queue_reporting []) zeroed_message with
          base := (recv_plain (queue_reporting []) zeroed_message).base.with_result 10 }
      = Except.ok 10 :=
  ⟨(uring_operation_contract recv_op (recv_plain (queue_reporting [1]) zeroed_message) awaiter).2.2.1
      (by decide),
   by decide,
   ((uring_operation_contract recv_op
      { recv_plain (queue_reporting []) zeroed_message with
        base := (recv_plain (queue_reporting []) zeroed_message).base.with_result 10 } awaiter).2.2.2.2.2
      rfl (by decide)).1 (by decide)⟩

/-! ## The submission wrapper -/

theorem get?_concat_self {α : Type} (l : List α) (a : α) : (l ++ [a]).get? l.length = some a := by
  induction l with
  | nil => rfl
  | cons x xs ih => simp

theorem set_concat_self {α : Type} (l : List α) (a b : α) :
    (l ++ [a]).set l.length b = l ++ [b] := by
  induction l with
  | nil => rfl
  | cons x xs ih => simp

theorem get_sqe_of_slot (q : io_queue) (s : io_uring_sqe) (rest : List io_uring_sqe)
    (h : q.slots = s :: rest) :
    q.get_sqe = some (q.sq.length, { q with slots := rest, sq := q.sq ++ [s] }) := by
  unfold io_queue.get_sqe
  rw [h]

theorem update_newest (slots : List io_uring_sqe) (l : List io_uring_sqe) (d : io_uring_sqe)
    (reports : List Int) (f : io_uring_sqe → io_uring_sqe) :
    io_queue.update { slots := slots, sq := l ++ [d], reports := reports } l.length f
      = { slots := slots, sq := l ++ [f d], reports := reports } := by
  simp [io_queue.update, get?_concat_self, set_concat_self]

theorem submit_fst (slots : List io_uring_sqe) (l : List io_uring_sqe) (q : io_queue) :
    (io_queue.submit { slots := slots, sq := l, reports := q.reports }).1 = q.submit.1 := by
  unfold io_queue.submit
  cases q.reports <;> rfl

theorem submit_snd (slots : List io_uring_sqe) (l : List io_uring_sqe) (q : io_queue) :
    (io_queue.submit { slots := slots, sq := l, reports := q.reports }).2
      = { slots := slots, sq := l, reports := q.reports.tail } := by
  unfold io_queue.submit
  cases q.reports <;> rfl

/-- What `submitt` does to a descriptor that is the newest of the queue. -/
theorem submitt_newest (b : uring_operation_base) (q : io_queue) (slots : List io_uring_sqe)
    (d : io_uring_sqe) :
    b.submitt { slots := slots, sq := q.sq ++ [d], reports := q.reports } q.sq.length
      = (q.submit.1,
         { b with m_message :=
            { b.m_message with awaitingCoroutine := b.m_awaitingCoroutine.address } },
         { slots := slots, sq := q.sq ++ [io_uring_sqe_set_data d (Ptr.message b.self)],
           reports := q.reports.tail }) := by
  unfold uring_operation_base.submitt
  simp only [update_newest, submit_fst, submit_snd]

theorem cancel_io_of_slot (b : uring_operation_base) (q : io_queue) (s : io_uring_sqe)
    (rest : List io_uring_sqe) (h : q.slots = s :: rest) :
    b.cancel_io q = some (decide (q.submit.1 = 1), b,
      { slots := rest, sq := q.sq ++ [io_uring_prep_cancel s (Ptr.message b.self) 0],
        reports := q.reports.tail }) := by
  unfold uring_operation_base.cancel_io
  rw [get_sqe_of_slot q s rest h]
  simp only [update_newest, submit_fst, submit_snd]

/-- C7 (counterexample): on a queue that has no free descriptor slot and whose `submit`
would report one accepted descriptor, `try_start_recv` does not return at all (the source
writes through the slot pointer without checking it): it does not return true, binds no
continuation and stores no correlation token; nor does `cancel_io` return. -/
theorem try_start_X_no_slot_counterexample :
    (queue_without_slot [1]).submit.1 = 1 ∧
    (queue_without_slot [1]).get_sqe = none ∧
    (recv_plain (queue_without_slot [1]) zeroed_message).base.try_start_X
        (queue_without_slot [1]) (start_call.recv 3 (Ptr.caller 100) 10 0) = none ∧
    (recv_plain (queue_without_slot [1]) zeroed_message).base.cancel_io
        (queue_without_slot [1]) = none :=
  ⟨rfl, rfl, rfl, rfl⟩

/-- C7 (amended): every `try_start_X` that the queue hands a descriptor slot binds the
saved continuation into the completion message and leaves the message's result as it was,
appends one descriptor to the queue whose correlation token is the identity of the
message, calls `submit` once and returns true iff `submit` reported exactly one accepted
descriptor; `cancel_io`, handed a slot, appends a separate descriptor, a cancel request
whose target is that same message identity and whose own correlation token is not the
message (no token is attached), leaves the object, its message's result and continuation
included, as it was, and returns true iff `submit` reported exactly one accepted
descriptor. -/
theorem try_start_X_and_cancel_io (b : uring_operation_base) (q : io_queue) (call : start_call)
    (s : io_uring_sqe) (rest : List io_uring_sqe) (hslot : q.slots = s :: rest) :
    ∃ (ok : Bool) (b1 : uring_operation_base) (d : io_uring_sqe),
      b.try_start_X q call
        = some (ok, b1, { slots := rest, sq := q.sq ++ [d], reports := q.reports.tail }) ∧
      b1.m_message.awaitingCoroutine = b.m_awaitingCoroutine.address ∧
      b1.m_message.result = b.m_message.result ∧
      b1.m_awaitingCoroutine = b.m_awaitingCoroutine ∧
      b1.self = b.self ∧
      d.user_data = Ptr.message b.self ∧
      (ok = true ↔ q.submit.1 = 1) ∧
      b.cancel_io q = some (decide (q.submit.1 = 1), b,
        { slots := rest, sq := q.sq ++ [io_uring_prep_cancel s (Ptr.message b.self) 0],
          reports := q.reports.tail }) ∧
      (∀ (q2 : io_queue) (s2 : io_uring_sqe) (rest2 : List io_uring_sqe),
        q2.slots = s2 :: rest2 →
        ∃ (okc : Bool) (dc : io_uring_sqe),
          b1.cancel_io q2
            = some (okc, b1, { slots := rest2, sq := q2.sq ++ [dc], reports := q2.reports.tail }) ∧
          dc.opcode = opcode.IORING_OP_ASYNC_CANCEL ∧
          dc.addr = d.user_data ∧
          dc.user_data = Ptr.null ∧
          dc.user_data ≠ d.user_data ∧
          (okc = true ↔ q2.submit.1 = 1)) := by
  have hc : ∀ (b1 : uring_operation_base), b1.self = b.self →
      ∀ (q2 : io_queue) (s2 : io_uring_sqe) (rest2 : List io_uring_sqe),
        q2.slots = s2 :: rest2 →
        ∃ (okc : Bool) (dc : io_uring_sqe),
          b1.cancel_io q2
            = some (okc, b1, { slots := rest2, sq := q2.sq ++ [dc], reports := q2.reports.tail }) ∧
          dc.opcode = opcode.IORING_OP_ASYNC_CANCEL ∧
          dc.addr = Ptr.message b.self ∧
          dc.user_data = Ptr.null ∧
          dc.user_data ≠ Ptr.message b.self ∧
          (okc = true ↔ q2.submit.1 = 1) := by
    intro b1 hb1 q2 s2 rest2 h2
    refine ⟨decide (q2.submit.1 = 1), io_uring_prep_cancel s2 (Ptr.message b1.self) 0,
      cancel_io_of_slot b1 q2 s2 rest2 h2, rfl, ?_, rfl, ?_, by simp⟩
    · rw [hb1]; rfl
    · simp [io_uring_prep_cancel, io_uring_prep_rw]
  have hq := get_sqe_of_slot q s rest hslot
  cases call <;>
  · simp only [uring_operation_base.try_start_X, uring_operation_base.try_start_read,
      uring_operation_base.try_start_write, uring_operation_base.try_start_send,
      uring_operation_base.try_start_sendto, uring_operation_base.try_start_recv,
      uring_operation_base.try_start_recvfrom, uring_operation_base.try_start_connect,
      uring_operation_base.try_start_disconnect, uring_operation_base.try_start_accept,
      uring_operation_base.try_start_timeout, uring_operation_base.try_start_nop, hq,
      update_newest, submitt_newest]
    exact ⟨_, _, _, rfl, rfl, rfl, rfl, rfl, rfl, by simp,
      cancel_io_of_slot b q s rest hslot,
      fun q2 s2 rest2 h2 => by exact hc _ (by rfl) q2 s2 rest2 h2⟩

/-- C7 (witness): a receive on a queue with a free slot whose `submit` reports 1 returns
true and leaves one descriptor carrying the identity of the message of object 7. -/
theorem try_start_X_and_cancel_io_witness :
    (queue_reporting [1, 0]).slots = [blank_sqe, blank_sqe] ∧
    ∃ (b1 : uring_operation_base) (d : io_uring_sqe),
      (recv_plain (queue_reporting [1, 0]) zeroed_message).base.try_start_X (queue_reporting [1, 0])
          (start_call.recv 3 (Ptr.caller 100) 10 0)
        = some (true, b1, { slots := [blank_sqe], sq := [d], reports := [0] }) ∧
      d.user_data = Ptr.message 7 := by
  obtain ⟨ok, b1, d, h1, _, _, _, _, h6, h7, _, _⟩ :=
    try_start_X_and_cancel_io (recv_plain (queue_reporting [1, 0]) zeroed_message).base (queue_reporting [1, 0])
      (start_call.recv 3 (Ptr.caller 100) 10 0) blank_sqe [blank_sqe] rfl
  have hok : ok = true := h7.mpr (by decide)
  subst hok
  exact ⟨rfl, b1, d, h1, h6⟩

/-! ## The cancellable adapter, one call at a time -/

/-- C4: for every cancellable operation whose token is signaled when it is awaited, be it
already at construction (the state is initialised to `completed`, `await_ready` returns
true and the `co_await` goes on without calling `await_suspend`) or only by the time
`await_suspend` runs (which then returns false): `try_start()` and `cancel()` are not
called, the queue is as it was, the state is as it was, no callback is registered, the
operation does not suspend, and `await_resume` fails with `operation_cancelled`. -/
theorem pre_cancelled_fast_path (OP : OPERATION) (ndebug : Bool) (q : io_queue) (self : Nat)
    (offset : Nat) (vec0 : iovec) (hdr0 : msghdr) (msg0 : io_message) (ct : cancellation_token)
    (h : coroutine_handle) :
    (ct.is_cancellation_requested = true →
      (cancellable.construct q self offset vec0 hdr0 msg0 ct).op.m_state = state.completed ∧
      uring_operation_cancellable.await_ready
        (cancellable.construct q self offset vec0 hdr0 msg0 ct) = true ∧
      uring_operation_cancellable.co_await OP ndebug
          (cancellable.construct q self offset vec0 hdr0 msg0 ct) h
        = some (awaited.resumed (Except.error failure.operation_cancelled)
            (cancellable.construct q self offset vec0 hdr0 msg0 ct))) ∧
    (∀ x : cancellable,
      (x = cancellable.construct q self offset vec0 hdr0 msg0 ct ∨
        x = (cancellable.construct q self offset vec0 hdr0 msg0 ct).request_cancellation) →
      x.op.m_cancellationToken.is_cancellation_requested = true →
      uring_operation_cancellable.await_suspend OP ndebug x h
        = some (false, x.save_continuation h) ∧
      (x.save_continuation h).calls.try_start_250 = 0 ∧
      (x.save_continuation h).cancel_calls = 0 ∧
      (x.save_continuation h).queue = q ∧
      (x.save_continuation h).op.m_state = x.op.m_state ∧
      (x.save_continuation h).op.m_cancellationRegistration = none ∧
      uring_operation_cancellable.await_resume OP (x.save_continuation h)
        = Except.error failure.operation_cancelled) ∧
    (ct.is_cancellation_requested = false → ct.can_be_cancelled = true →
      uring_operation_cancellable.await_ready
        (cancellable.construct q self offset vec0 hdr0 msg0 ct).request_cancellation = false ∧
      uring_operation_cancellable.co_await OP ndebug
          (cancellable.construct q self offset vec0 hdr0 msg0 ct).request_cancellation h
        = some (awaited.resumed (Except.error failure.operation_cancelled)
            ((cancellable.construct q self offset vec0 hdr0 msg0 ct).request_cancellation.save_continuation
              h))) := by
  refine ⟨?_, ?_, ?_⟩
  · intro hs
    simp [uring_operation_cancellable.co_await, uring_operation_cancellable.await_ready,
      uring_operation_cancellable.await_resume, cancellable.construct,
      uring_operation_cancellable.construct, hs]
  · intro x hx hs
    have hsusp : uring_operation_cancellable.await_suspend OP ndebug x h
        = some (false, x.save_continuation h) := by
      unfold uring_operation_cancellable.await_suspend
      simp [cancellable.save_continuation, hs]
    refine ⟨hsusp, ?_⟩
    rcases hx with hx | hx <;> subst hx <;>
      simp [uring_operation_cancellable.await_resume, cancellable.construct,
        uring_operation_cancellable.construct, cancellable.save_continuation,
        cancellable.request_cancellation, cancellable.cancel_calls,
        uring_operation_base.construct]
  · intro hs hc
    simp [uring_operation_cancellable.co_await, uring_operation_cancellable.await_ready,
      uring_operation_cancellable.await_resume, uring_operation_cancellable.await_suspend,
      cancellable.construct, uring_operation_cancellable.construct,
      cancellable.save_continuation, cancellable.request_cancellation,
      cancellation_token.signal, uring_operation_base.construct, hs, hc]

/-- C4 (witness): a receive constructed with a signaled token resumes at once with
`operation_cancelled`, and so does one whose token is signaled after construction. -/
theorem pre_cancelled_fast_path_witness :
    uring_operation_cancellable.co_await recv_op true
        (recv_cancellable (queue_reporting [1]) token_signaled) awaiter
      = some (awaited.resumed (Except.error failure.operation_cancelled)
          (recv_cancellable (queue_reporting [1]) token_signaled)) ∧
    uring_operation_cancellable.co_await recv_op true
        (recv_cancellable (queue_reporting [1]) token_armed).request_cancellation awaiter
      = some (awaited.resumed (Except.error failure.operation_cancelled)
          ((recv_cancellable (queue_reporting [1]) token_armed).request_cancellation.save_continuation
            awaiter)) :=
  ⟨((pre_cancelled_fast_path recv_op true (queue_reporting [1]) 7 0 ⟨Ptr.null, 0⟩ msghdr.zero zeroed_message
      token_signaled awaiter).1 rfl).2.2,
   ((pre_cancelled_fast_path recv_op true (queue_reporting [1]) 7 0 ⟨Ptr.null, 0⟩ msghdr.zero zeroed_message
      token_armed awaiter).2.2 rfl rfl).2⟩

theorem registered_callback_effect (OP : OPERATION) (y : cancellable) :
    (uring_operation_cancellable.registered_callback OP y).op.m_state
      = state.cancellation_requested ∧
    (uring_operation_cancellable.registered_callback OP y).calls.cancel_297
      = y.calls.cancel_297 + 1 ∧
    (uring_operation_cancellable.registered_callback OP y).cancel_calls = y.cancel_calls + 1 ∧
    (uring_operation_cancellable.registered_callback OP y).calls.try_start_250
      = y.calls.try_start_250 := by
  simp only [uring_operation_cancellable.registered_callback, cancellable.call_cancel_297,
    cancellable.run_cancel, cancellable.store, cancellable.cancel_calls]
  refine ⟨trivial, trivial, ?_, trivial⟩
  omega

/-- The registered lambda is one store of `cancellation_requested` and one application of
the concrete type's `cancel()` to the object and its queue. -/
theorem registered_callback_eq (OP : OPERATION) (y : cancellable) :
    uring_operation_cancellable.registered_callback OP y
      = { op := { base := (OP.cancel { base := y.op.base, queue := y.queue }).base,
                  m_state := state.cancellation_requested,
                  m_cancellationToken := y.op.m_cancellationToken,
                  m_cancellationRegistration := y.op.m_cancellationRegistration },
          queue := (OP.cancel { base := y.op.base, queue := y.queue }).queue,
          calls := { y.calls with cancel_297 := y.calls.cancel_297 + 1 } } := rfl

/-- C9: for every operation whose token is not signaled and whose `try_start()` returns
true, `await_suspend`, run with nobody else acting during the call, returns true with the
state `started`, has called `try_start()` once (the object and the queue are what that
call left) and `cancel()` not at all, and has registered a cancellation callback (with
the operation's token) if the token can be cancelled and has left the registration
untouched if it cannot; the `co_await` suspends; the registered callback, invoked on the
suspended operation, stores `cancellation_requested` and calls `cancel()` exactly once:
the object and the queue are what one application of the concrete type's `cancel()`
leaves, and nothing else changes but the count of the calls at line 297. -/
theorem await_suspend_asynchronous_path (OP : OPERATION) (ndebug : Bool) (x : cancellable)
    (h : coroutine_handle)
    (htok : x.op.m_cancellationToken.is_cancellation_requested = false)
    (hstart : (OP.try_start { base := ((x.save_continuation h).store state.started).op.base,
                              queue := x.queue }).1 = true) :
    ∃ x1 : cancellable,
      uring_operation_cancellable.await_suspend OP ndebug x h = some (true, x1) ∧
      x1.op.m_state = state.started ∧
      x1.op.m_cancellationRegistration
        = (if x.op.m_cancellationToken.can_be_cancelled then
            some { token := x.op.m_cancellationToken }
           else x.op.m_cancellationRegistration) ∧
      x1.calls.try_start_250 = x.calls.try_start_250 + 1 ∧
      x1.cancel_calls = x.cancel_calls ∧
      (x.op.m_state ≠ state.completed →
        uring_operation_cancellable.co_await OP ndebug x h = some (awaited.suspended x1)) ∧
      (uring_operation_cancellable.registered_callback OP x1).op.m_state
        = state.cancellation_requested ∧
      (uring_operation_cancellable.registered_callback OP x1).cancel_calls
        = x1.cancel_calls + 1 ∧
      x1.op.base
        = (OP.try_start { base := ((x.save_continuation h).store state.started).op.base,
                          queue := x.queue }).2.base ∧
      x1.queue
        = (OP.try_start { base := ((x.save_continuation h).store state.started).op.base,
                          queue := x.queue }).2.queue ∧
      uring_operation_cancellable.registered_callback OP x1
        = { op := { base := (OP.cancel { base := x1.op.base, queue := x1.queue }).base,
                    m_state := state.cancellation_requested,
                    m_cancellationToken := x1.op.m_cancellationToken,
                    m_cancellationRegistration := x1.op.m_cancellationRegistration },
            queue := (OP.cancel { base := x1.op.base, queue := x1.queue }).queue,
            calls := { x1.calls with cancel_297 := x1.calls.cancel_297 + 1 } } := by
  have hcall : (((x.save_continuation h).store state.started).call_try_start OP).1 = true :=
    hstart
  cases hcan : x.op.m_cancellationToken.can_be_cancelled
  · have e : uring_operation_cancellable.await_suspend OP ndebug x h
        = some (true, ((x.save_continuation h).store state.started).call_try_start OP |>.2) := by
      unfold uring_operation_cancellable.await_suspend
      simp [cancellable.save_continuation, cancellable.store, htok, hcan] at hcall ⊢
      simp [hcall]
    refine ⟨_, e, rfl, ?_, rfl, rfl, ?_, (registered_callback_effect OP _).1,
      (registered_callback_effect OP _).2.2.1, rfl, rfl, registered_callback_eq OP _⟩
    · simp [cancellable.call_try_start, cancellable.store, cancellable.save_continuation, hcan]
    · intro hne
      simp [uring_operation_cancellable.co_await, uring_operation_cancellable.await_ready,
        hne, e]
  · have e : uring_operation_cancellable.await_suspend OP ndebug x h
        = some (true,
            (((x.save_continuation h).store state.started).call_try_start OP |>.2).store
              state.started |>.emplace_registration) := by
      unfold uring_operation_cancellable.await_suspend
      simp [cancellable.save_continuation, cancellable.store, htok, hcan,
        compare_exchange_strong, cancellable.call_try_start] at hcall ⊢
      simp [hcall]
    refine ⟨_, e, rfl, ?_, rfl, rfl, ?_, (registered_callback_effect OP _).1,
      (registered_callback_effect OP _).2.2.1, rfl, rfl, registered_callback_eq OP _⟩
    · simp [cancellable.emplace_registration, cancellable.call_try_start, cancellable.store,
        cancellable.save_continuation, hcan]
    · intro hne
      simp [uring_operation_cancellable.co_await, uring_operation_cancellable.await_ready,
        hne, e]

/-- C9 (witness): a receive with an armed token on a queue that accepts its descriptor
suspends in state `started` with a callback registered and the receive descriptor in the
queue; the callback, run on it, leaves the state `cancellation_requested` and, through
the one call of `cancel()`, a second descriptor in the queue: the request to cancel the
message of object 7. -/
theorem await_suspend_asynchronous_path_witness :
    ∃ x1 : cancellable,
      uring_operation_cancellable.await_suspend recv_op false
          (recv_cancellable (queue_reporting [1]) token_armed) awaiter = some (true, x1) ∧
      x1.op.m_state = state.started ∧
      x1.op.m_cancellationRegistration = some { token := token_armed } ∧
      x1.cancel_calls = 0 ∧
      x1.queue.sq.map (fun d => (d.opcode, d.addr, d.user_data))
        = [(opcode.IORING_OP_RECV, Ptr.caller 100, Ptr.message 7)] ∧
      (uring_operation_cancellable.registered_callback recv_op x1).op.m_state
        = state.cancellation_requested ∧
      (uring_operation_cancellable.registered_callback recv_op x1).cancel_calls = 1 ∧
      (uring_operation_cancellable.registered_callback recv_op x1).queue.sq.map
          (fun d => (d.opcode, d.addr, d.user_data))
        = [(opcode.IORING_OP_RECV, Ptr.caller 100, Ptr.message 7),
           (opcode.IORING_OP_ASYNC_CANCEL, Ptr.message 7, Ptr.null)] := by
  obtain ⟨x1, h1, h2, h3, _, h5, _, h7, h8, _⟩ :=
    await_suspend_asynchronous_path recv_op false
      (recv_cancellable (queue_reporting [1]) token_armed) awaiter rfl (by decide)
  have e : ∃ y : cancellable,
      uring_operation_cancellable.await_suspend recv_op false
          (recv_cancellable (queue_reporting [1]) token_armed) awaiter = some (true, y) ∧
      y.queue.sq.map (fun d => (d.opcode, d.addr, d.user_data))
        = [(opcode.IORING_OP_RECV, Ptr.caller 100, Ptr.message 7)] ∧
      (uring_operation_cancellable.registered_callback recv_op y).queue.sq.map
          (fun d => (d.opcode, d.addr, d.user_data))
        = [(opcode.IORING_OP_RECV, Ptr.caller 100, Ptr.message 7),
           (opcode.IORING_OP_ASYNC_CANCEL, Ptr.message 7, Ptr.null)] := ⟨_, rfl, rfl, rfl⟩
  obtain ⟨y, e1, e2, e3⟩ := e
  have hy : y = x1 := by
    have hsome := e1.symm.trans h1
    simpa using hsome
  subst hy
  have h8b : (uring_operation_cancellable.registered_callback recv_op y).cancel_calls = 1 := by
    rw [h8, h5]
    rfl
  exact ⟨y, e1, h2, h3, h5, e2, h7, h8b, e3⟩

/-- C10 (counterexample): a declaration of `io_message` whose value-initialisation leaves
−1 in `result`. On a queue that accepts nothing the non-cancellable receive does not
suspend, `try_start` leaves the result as it was, and `await_resume` fails with the OS
error of code 1: it does not return the count 0. -/
theorem synchronous_submission_failure_counterexample :
    (recv_op.try_start
      { base := { (recv_plain (queue_reporting [0]) ⟨-1, Ptr.null⟩).base with
          m_awaitingCoroutine := awaiter }, queue := queue_reporting [0] }).1 = false ∧
    (recv_op.try_start
      { base := { (recv_plain (queue_reporting [0]) ⟨-1, Ptr.null⟩).base with
          m_awaitingCoroutine := awaiter },
        queue := queue_reporting [0] }).2.base.m_message.result = -1 ∧
    ∃ c1 : io_context,
      uring_operation.co_await recv_op (recv_plain (queue_reporting [0]) ⟨-1, Ptr.null⟩) awaiter
        = awaited.resumed (Except.error (failure.system_error 1)) c1 :=
  ⟨rfl, rfl, _, rfl⟩

/-- C10 (amended): when `try_start()` returns false and leaves the message's result as the
constructor set it, (a) a cancellable operation constructed with a token that is not
signaled does not suspend, registers no cancellation callback, and its `await_resume`
fails with `operation_cancelled`, the result being the sentinel `-ECANCELED` that the
constructor stores for every token; (b) a non-cancellable operation does not suspend and
its `await_resume`, through the wrapper's `get_result`, gives what `get_result` makes of
the result `msg0.result` that the value-initialisation of the message left: the count 0
without error when that result is 0, an OS error when it is negative. -/
theorem synchronous_submission_failure (OP : OPERATION) (ndebug : Bool) (q : io_queue)
    (self : Nat) (offset : Nat) (vec0 : iovec) (hdr0 : msghdr) (msg0 : io_message)
    (ct : cancellation_token) (h : coroutine_handle) :
    (cancellable.construct q self offset vec0 hdr0 msg0 ct).op.base.m_message.result
      = -ECANCELED ∧
    (ct.is_cancellation_requested = false →
      (OP.try_start
        { base := (((cancellable.construct q self offset vec0 hdr0 msg0 ct).save_continuation
            h).store state.started).op.base, queue := q }).1 = false →
      (OP.try_start
        { base := (((cancellable.construct q self offset vec0 hdr0 msg0 ct).save_continuation
            h).store state.started).op.base, queue := q }).2.base.m_message.result
        = -ECANCELED →
      ∃ x1 : cancellable,
        uring_operation_cancellable.await_suspend OP ndebug
          (cancellable.construct q self offset vec0 hdr0 msg0 ct) h = some (false, x1) ∧
        x1.op.m_cancellationRegistration = none ∧
        x1.cancel_calls = 0 ∧
        uring_operation_cancellable.await_resume OP x1
          = Except.error failure.operation_cancelled ∧
        uring_operation_cancellable.co_await OP ndebug
          (cancellable.construct q self offset vec0 hdr0 msg0 ct) h
          = some (awaited.resumed (Except.error failure.operation_cancelled) x1)) ∧
    (uring_operation.construct self offset vec0 hdr0 msg0).m_message.result = msg0.result ∧
    (OP.get_result = uring_operation_base.get_result →
      (OP.try_start
        { base := { uring_operation.construct self offset vec0 hdr0 msg0 with
            m_awaitingCoroutine := h }, queue := q }).1 = false →
      (OP.try_start
        { base := { uring_operation.construct self offset vec0 hdr0 msg0 with
            m_awaitingCoroutine := h }, queue := q }).2.base.m_message.result = msg0.result →
      uring_operation.co_await OP
          { base := uring_operation.construct self offset vec0 hdr0 msg0, queue := q } h
        = awaited.resumed
            (if msg0.result < 0 then Except.error (failure.system_error (int_neg msg0.result))
             else Except.ok (to_size_t msg0.result))
            (OP.try_start
              { base := { uring_operation.construct self offset vec0 hdr0 msg0 with
                  m_awaitingCoroutine := h }, queue := q }).2 ∧
      (msg0.result = 0 →
        uring_operation.co_await OP
            { base := uring_operation.construct self offset vec0 hdr0 msg0, queue := q } h
          = awaited.resumed (Except.ok 0)
              (OP.try_start
                { base := { uring_operation.construct self offset vec0 hdr0 msg0 with
                    m_awaitingCoroutine := h }, queue := q }).2)) := by
  have hsent : error_operation_aborted = -ECANCELED := by decide
  refine ⟨hsent, ?_, rfl, ?_⟩
  · intro hct hfail hkeep
    have hcall : (((cancellable.construct q self offset vec0 hdr0 msg0 ct).save_continuation
        h).store state.started |>.call_try_start OP).1 = false := hfail
    have hres : (((cancellable.construct q self offset vec0 hdr0 msg0 ct).save_continuation
        h).store state.started |>.call_try_start OP).2.op.base.m_message.result
          = error_operation_aborted := by
      rw [error_operation_aborted_eq]
      exact hkeep
    have e : uring_operation_cancellable.await_suspend OP ndebug
        (cancellable.construct q self offset vec0 hdr0 msg0 ct) h
          = some (false,
              ((cancellable.construct q self offset vec0 hdr0 msg0 ct).save_continuation
                h).store state.started |>.call_try_start OP |>.2) := by
      unfold uring_operation_cancellable.await_suspend
      have htok : ((cancellable.construct q self offset vec0 hdr0 msg0 ct).save_continuation
          h).op.m_cancellationToken.is_cancellation_requested = false := hct
      simp only [htok, hcall]
      simp
    have eres : uring_operation_cancellable.await_resume OP
        (((cancellable.construct q self offset vec0 hdr0 msg0 ct).save_continuation
          h).store state.started |>.call_try_start OP |>.2)
          = Except.error failure.operation_cancelled := by
      unfold uring_operation_cancellable.await_resume
      rw [if_pos hres]
    refine ⟨_, e, rfl, rfl, eres, ?_⟩
    have hnr : uring_operation_cancellable.await_ready
        (cancellable.construct q self offset vec0 hdr0 msg0 ct) = false := by
      simp [uring_operation_cancellable.await_ready, cancellable.construct,
        uring_operation_cancellable.construct, hct]
    simp [uring_operation_cancellable.co_await, hnr, e, eres]
  · intro hg hfail hkeep
    have hs : uring_operation.await_suspend OP
        { base := uring_operation.construct self offset vec0 hdr0 msg0, queue := q } h
          = OP.try_start { base := { uring_operation.construct self offset vec0 hdr0 msg0 with
              m_awaitingCoroutine := h }, queue := q } := rfl
    have hr : uring_operation_base.get_result
        (OP.try_start { base := { uring_operation.construct self offset vec0 hdr0 msg0 with
              m_awaitingCoroutine := h }, queue := q }).2.base
          = (if msg0.result < 0 then
              Except.error (failure.system_error (int_neg msg0.result))
             else Except.ok (to_size_t msg0.result)) := by
      unfold uring_operation_base.get_result
      rw [hkeep]
    have hco : uring_operation.co_await OP
          { base := uring_operation.construct self offset vec0 hdr0 msg0, queue := q } h
        = awaited.resumed
            (if msg0.result < 0 then Except.error (failure.system_error (int_neg msg0.result))
             else Except.ok (to_size_t msg0.result))
            (OP.try_start
              { base := { uring_operation.construct self offset vec0 hdr0 msg0 with
                  m_awaitingCoroutine := h }, queue := q }).2 := by
      simp [uring_operation.co_await, uring_operation.await_ready,
        uring_operation.await_resume, hs, hfail, hg, hr]
    refine ⟨hco, ?_⟩
    intro h0
    rw [hco, h0]
    rfl

/-- C10 (witness): on a queue that accepts nothing, a cancellable receive with an armed
token resumes at once with `operation_cancelled`, and a non-cancellable receive whose
message was left zero resumes at once with the count 0. -/
theorem synchronous_submission_failure_witness :
    (∃ x1 : cancellable,
      uring_operation_cancellable.co_await recv_op false
          (recv_cancellable (queue_reporting [0]) token_armed) awaiter
        = some (awaited.resumed (Except.error failure.operation_cancelled) x1) ∧
      x1.op.m_cancellationRegistration = none) ∧
    ∃ c1 : io_context,
      uring_operation.co_await recv_op (recv_plain (queue_reporting [0]) zeroed_message) awaiter
        = awaited.resumed (Except.ok 0) c1 := by
  have w := synchronous_submission_failure recv_op false (queue_reporting [0]) 7 0
    ⟨Ptr.null, 0⟩ msghdr.zero zeroed_message token_armed awaiter
  obtain ⟨x1, _, h2, _, _, h5⟩ := w.2.1 rfl (by decide) (by decide)
  exact ⟨⟨x1, h5, h2⟩, ⟨_, (w.2.2.2 rfl (by decide) (by decide)).2 rfl⟩⟩

/-! ## The cancellable adapter, step by step -/

/-- The steps of `await_suspend` run one after the other, with nothing in between, do
what the member function does as a whole. -/
theorem run_hook_eq_await_suspend (OP : OPERATION) (ndebug : Bool) (x : cancellable)
    (h : coroutine_handle) :
    (run_hook OP ndebug 8 (Sys.init x h)).outcome
      = uring_operation_cancellable.await_suspend OP ndebug x h := by
  unfold uring_operation_cancellable.await_suspend
  cases htok : x.op.m_cancellationToken.is_cancellation_requested <;>
  cases hcan : x.op.m_cancellationToken.can_be_cancelled <;>
  cases hcall : (((x.save_continuation h).store state.started).call_try_start OP).1 <;>
  cases ndebug <;>
  simp [run_hook, await_suspend_step, Sys.init, Sys.goto, Sys.outcome,
    cancellable.save_continuation, cancellable.store, compare_exchange_strong,
    cancellable.call_try_start, cancellable.emplace_registration, htok, hcan] at hcall ⊢ <;>
  simp [hcall]

theorem cancel_ledger_init (q : io_queue) (self : Nat) (offset : Nat) (vec0 : iovec)
    (hdr0 : msghdr) (msg0 : io_message) (ct : cancellation_token) (h : coroutine_handle) :
    cancel_ledger (Sys.init (cancellable.construct q self offset vec0 hdr0 msg0 ct) h) := by
  simp [cancel_ledger, Sys.init, cancellable.construct, uring_operation_cancellable.construct]

theorem cancel_ledger_hook (OP : OPERATION) (ndebug : Bool) (s s1 : Sys)
    (hinv : cancel_ledger s) (hstep : await_suspend_step OP ndebug s = some s1) :
    cancel_ledger s1 := by
  obtain ⟨⟨⟨b, st, tok, reg⟩, q, ⟨nt, n279, n297, n362⟩⟩, ⟨hc, can, old, pc⟩, cb⟩ := s
  obtain ⟨h362, hhook, hcb⟩ := hinv
  unfold await_suspend_step at hstep
  cases pc <;> cases cb <;>
    simp only [Sys.goto, cancellable.save_continuation, cancellable.store,
      cancellable.call_try_start, cancellable.call_cancel_279, cancellable.run_cancel,
      cancellable.emplace_registration, compare_exchange_strong] at h362 hhook hcb hstep <;>
    (try split_ifs at hstep) <;>
    (try (injection hstep with hstep; subst hstep)) <;>
    simp_all [cancel_ledger]

theorem cancel_ledger_callback (OP : OPERATION) (s s1 : Sys)
    (hinv : cancel_ledger s) (hstep : callback_step OP s = some s1) :
    cancel_ledger s1 := by
  obtain ⟨⟨⟨b, st, tok, reg⟩, q, ⟨nt, n279, n297, n362⟩⟩, ⟨hc, can, old, pc⟩, cb⟩ := s
  obtain ⟨h362, hhook, hcb⟩ := hinv
  unfold callback_step at hstep
  cases pc <;> cases cb <;> cases reg <;>
    simp only [cancellable.store, cancellable.call_cancel_297, cancellable.run_cancel]
      at h362 hhook hcb hstep <;>
    (try split_ifs at hstep) <;>
    (try (injection hstep with hstep; subst hstep)) <;>
    simp_all [cancel_ledger]

theorem cancel_ledger_step (OP : OPERATION) (ndebug : Bool) (a : action) (s s1 : Sys)
    (hinv : cancel_ledger s) (hstep : step OP ndebug a s = some s1) :
    cancel_ledger s1 := by
  cases a with
  | hook => exact cancel_ledger_hook OP ndebug s s1 hinv hstep
  | callback => exact cancel_ledger_callback OP s s1 hinv hstep
  | request_cancellation =>
    simp only [step, Option.some.injEq] at hstep
    subst hstep
    obtain ⟨h362, hhook, hcb⟩ := hinv
    refine ⟨h362, ?_, ?_⟩
    · revert hhook
      cases s.hook.pc <;> simp [cancellable.request_cancellation]
    · revert hcb
      cases s.callback <;> simp [cancellable.request_cancellation]
  | deliver result =>
    simp only [step, Option.some.injEq] at hstep
    subst hstep
    exact hinv
  | await_ready =>
    simp only [step, Option.some.injEq] at hstep
    subst hstep
    exact hinv
  | await_resume =>
    simp only [step, Option.some.injEq] at hstep
    subst hstep
    exact hinv
  | foreign_store st =>
    simp only [step, Option.some.injEq] at hstep
    subst hstep
    exact hinv

theorem cancel_ledger_run (OP : OPERATION) (ndebug : Bool) (acts : List action) :
    ∀ (s s1 : Sys), cancel_ledger s → run OP ndebug acts s = some s1 → cancel_ledger s1 := by
  induction acts with
  | nil =>
    intro s s1 hinv hrun
    simp only [run, Option.some.injEq] at hrun
    subst hrun
    exact hinv
  | cons a rest ih =>
    intro s s1 hinv hrun
    simp only [run] at hrun
    cases hs : step OP ndebug a s with
    | none => rw [hs] at hrun; cases hrun
    | some s2 =>
      rw [hs] at hrun
      exact ih s2 s1 (cancel_ledger_step OP ndebug a s s2 hinv hs) hrun

theorem cancel_ledger_bound (s : Sys) (hinv : cancel_ledger s) :
    s.x.cancel_calls ≤ 1 ∧ ¬ (1 ≤ s.x.calls.cancel_279 ∧ 1 ≤ s.x.calls.cancel_297) := by
  obtain ⟨⟨⟨b, st, tok, reg⟩, q, ⟨nt, n279, n297, n362⟩⟩, ⟨hc, can, old, pc⟩, cb⟩ := s
  obtain ⟨h362, hhook, hcb⟩ := hinv
  cases pc <;> cases cb <;> cases reg <;>
    simp only [cancellable.cancel_calls] at h362 hhook hcb ⊢ <;>
    simp_all <;> omega

/-- C3: in every run of a freshly constructed cancellable operation, whatever the order in
which the steps of `await_suspend`, the steps of the registered callback (which its
registration invokes at most once), requests for cancellation, deliveries of the
completion record and writes of other parties to the state fall, `cancel()` has been
called at most once on the concrete type, and the call of `await_suspend` (line 279) and
the call of the callback (line 297) have not both been made. -/
theorem cancel_at_most_once (OP : OPERATION) (ndebug : Bool) (q : io_queue) (self : Nat)
    (offset : Nat) (vec0 : iovec) (hdr0 : msghdr) (msg0 : io_message) (ct : cancellation_token)
    (h : coroutine_handle) (acts : List action) (s : Sys)
    (hrun : run OP ndebug acts
      (Sys.init (cancellable.construct q self offset vec0 hdr0 msg0 ct) h) = some s) :
    s.x.cancel_calls ≤ 1 ∧ ¬ (1 ≤ s.x.calls.cancel_279 ∧ 1 ≤ s.x.calls.cancel_297) :=
  cancel_ledger_bound s
    (cancel_ledger_run OP ndebug acts _ s
      (cancel_ledger_init q self offset vec0 hdr0 msg0 ct h) hrun)

/-- C3 (witness): two runs of a receive with an armed token. In the first the callback is
registered, cancellation is requested and the callback calls `cancel()`; in the second the
state is set to `cancellation_requested` behind the back of `await_suspend`, which then
calls `cancel()` itself and registers nothing. Either way there is one call. -/
theorem cancel_at_most_once_witness :
    (∃ s : Sys,
      run recv_op false schedule_callback_cancels
        (Sys.init (recv_cancellable (queue_reporting [1, 1]) token_armed) awaiter) = some s ∧
      s.x.calls.cancel_297 = 1 ∧ s.x.calls.cancel_279 = 0 ∧ s.x.cancel_calls ≤ 1) ∧
    (∃ s : Sys,
      run recv_op false schedule_hook_cancels
        (Sys.init (recv_cancellable (queue_reporting [1, 1]) token_armed) awaiter) = some s ∧
      s.x.calls.cancel_279 = 1 ∧ s.x.calls.cancel_297 = 0 ∧ s.x.cancel_calls ≤ 1) := by
  refine ⟨⟨_, rfl, rfl, rfl, ?_⟩, ⟨_, rfl, rfl, rfl, ?_⟩⟩
  · exact (cancel_at_most_once recv_op false (queue_reporting [1, 1]) 7 0 ⟨Ptr.null, 0⟩
      msghdr.zero zeroed_message token_armed awaiter schedule_callback_cancels _ rfl).1
  · exact (cancel_at_most_once recv_op false (queue_reporting [1, 1]) 7 0 ⟨Ptr.null, 0⟩
      msghdr.zero zeroed_message token_armed awaiter schedule_hook_cancels _ rfl).1

theorem completed_by_constructor_init (q : io_queue) (self : Nat) (offset : Nat) (vec0 : iovec)
    (hdr0 : msghdr) (msg0 : io_message) (ct : cancellation_token) (h : coroutine_handle) :
    completed_by_constructor (Sys.init (cancellable.construct q self offset vec0 hdr0 msg0 ct) h) := by
  cases hct : ct.is_cancellation_requested <;>
    simp [completed_by_constructor, Sys.init, cancellable.construct,
      uring_operation_cancellable.construct, hct]

/-- What one action of the adapter or its collaborators does to the state: the invariant
goes on, `not_started` is not written back, and `completed` stays. -/
theorem state_facts_step (OP : OPERATION) (ndebug : Bool) (a : action) (s s1 : Sys)
    (hinv : completed_by_constructor s) (ha : a.of_source = true)
    (hstep : step OP ndebug a s = some s1) :
    completed_by_constructor s1 ∧
    (s.x.op.m_state ≠ state.not_started → s1.x.op.m_state ≠ state.not_started) ∧
    (s.x.op.m_state = state.completed → s1.x.op.m_state = state.completed) := by
  obtain ⟨⟨⟨b, st, tok, reg⟩, q, ⟨nt, n279, n297, n362⟩⟩, ⟨hc, can, old, pc⟩, cb⟩ := s
  unfold completed_by_constructor at hinv
  cases a with
  | hook =>
    simp only [step] at hstep
    unfold await_suspend_step at hstep
    cases pc <;> cases st <;> (try simp at hinv) <;>
      simp [Sys.goto, cancellable.save_continuation, cancellable.store,
        cancellable.call_try_start, cancellable.call_cancel_279, cancellable.run_cancel,
        cancellable.emplace_registration, compare_exchange_strong] at hstep <;>
      (try split_ifs at hstep) <;>
      (try (obtain ⟨_, hstep⟩ := hstep)) <;>
      simp_all [completed_by_constructor] <;>
      (try subst_vars) <;>
      (try simp)
  | callback =>
    simp only [step] at hstep
    unfold callback_step at hstep
    cases cb <;> cases st <;> cases reg <;>
      simp only [cancellable.store, cancellable.call_cancel_297, cancellable.run_cancel]
        at hinv hstep <;>
      (try split_ifs at hstep) <;>
      (try (injection hstep with hstep; subst hstep)) <;>
      simp_all [completed_by_constructor]
  | request_cancellation =>
    simp only [step, Option.some.injEq] at hstep
    subst hstep
    cases hcan : tok.can_be_cancelled <;>
      simp_all [completed_by_constructor, cancellable.request_cancellation,
        cancellation_token.signal]
  | deliver result =>
    simp only [step, Option.some.injEq] at hstep
    subst hstep
    simp_all [completed_by_constructor, cancellable.deliver]
  | await_ready =>
    simp only [step, Option.some.injEq] at hstep
    subst hstep
    simp_all [completed_by_constructor]
  | await_resume =>
    simp only [step, Option.some.injEq] at hstep
    subst hstep
    simp_all [completed_by_constructor]
  | foreign_store st1 => simp [action.of_source] at ha

theorem completed_by_constructor_run (OP : OPERATION) (ndebug : Bool) (acts : List action) :
    ∀ (s s1 : Sys), completed_by_constructor s → (∀ b ∈ acts, action.of_source b = true) →
      run OP ndebug acts s = some s1 → completed_by_constructor s1 := by
  induction acts with
  | nil =>
    intro s s1 hinv _ hrun
    simp only [run, Option.some.injEq] at hrun
    subst hrun
    exact hinv
  | cons a rest ih =>
    intro s s1 hinv hsrc hrun
    simp only [run] at hrun
    cases hs : step OP ndebug a s with
    | none => rw [hs] at hrun; cases hrun
    | some s2 =>
      rw [hs] at hrun
      exact ih s2 s1
        (state_facts_step OP ndebug a s s2 hinv (hsrc a (List.mem_cons_self a rest)) hs).1
        (fun b hb => hsrc b (List.mem_cons_of_mem a hb)) hrun

theorem on_cancellation_requested_past_start (OP : OPERATION) (at_cas : state)
    (x : cancellable) (hx : x.op.m_state ≠ state.not_started) :
    (uring_operation_cancellable.on_cancellation_requested OP at_cas x).op.m_state
      = x.op.m_state := by
  unfold uring_operation_cancellable.on_cancellation_requested
  simp only [if_neg hx]
  split_ifs <;> rfl

/-- C8: in every state a cancellable operation reaches after construction through steps of
`await_suspend`, steps of the registered callback, calls of `await_ready` and
`await_resume`, requests for cancellation (the token stays signaled once it is) and
deliveries of the completion record, no further such action writes `not_started` into a
state that has left it, and none changes a state that is `completed`; the same holds for
a call of `on_cancellation_requested` there. -/
theorem state_never_regresses (OP : OPERATION) (ndebug : Bool) (q : io_queue) (self : Nat)
    (offset : Nat) (vec0 : iovec) (hdr0 : msghdr) (msg0 : io_message) (ct : cancellation_token)
    (h : coroutine_handle) (acts : List action) (s : Sys) (a : action) (s1 : Sys)
    (hsrc : ∀ b ∈ acts, action.of_source b = true)
    (hrun : run OP ndebug acts
      (Sys.init (cancellable.construct q self offset vec0 hdr0 msg0 ct) h) = some s)
    (ha : a.of_source = true)
    (hstep : step OP ndebug a s = some s1) :
    (s.x.op.m_state ≠ state.not_started → s1.x.op.m_state ≠ state.not_started) ∧
    (s.x.op.m_state = state.completed → s1.x.op.m_state = state.completed) ∧
    (∀ at_cas : state, s.x.op.m_state ≠ state.not_started →
      (uring_operation_cancellable.on_cancellation_requested OP at_cas s.x).op.m_state
        = s.x.op.m_state) := by
  have hinv := completed_by_constructor_run OP ndebug acts _ s
    (completed_by_constructor_init q self offset vec0 hdr0 msg0 ct h) hsrc hrun
  have hf := state_facts_step OP ndebug a s s1 hinv ha hstep
  exact ⟨hf.2.1, hf.2.2, fun at_cas hx => on_cancellation_requested_past_start OP at_cas s.x hx⟩

/-- C8 (witness): an operation constructed with a signaled token stays `completed` when
cancellation is requested again after `await_suspend` has been called on it; in an
operation with an armed token the callback's call of `cancel()`, made in state
`cancellation_requested`, does not bring `not_started` back. -/
theorem state_never_regresses_witness :
    (∃ s s1 : Sys,
      run recv_op false schedule_pre_cancelled
        (Sys.init (recv_cancellable (queue_reporting [1, 1]) token_signaled) awaiter) = some s ∧
      step recv_op false action.request_cancellation s = some s1 ∧
      s.x.op.m_state = state.completed ∧ s1.x.op.m_state = state.completed) ∧
    (∃ s s1 : Sys,
      run recv_op false
        [action.hook, action.hook, action.hook, action.hook, action.hook, action.hook,
         action.request_cancellation, action.callback]
        (Sys.init (recv_cancellable (queue_reporting [1, 1]) token_armed) awaiter) = some s ∧
      step recv_op false action.callback s = some s1 ∧
      s.x.op.m_state = state.cancellation_requested ∧
      s1.x.op.m_state ≠ state.not_started) := by
  refine ⟨⟨_, _, rfl, rfl, rfl, ?_⟩, ⟨_, _, rfl, rfl, rfl, ?_⟩⟩
  · exact (state_never_regresses recv_op false (queue_reporting [1, 1]) 7 0 ⟨Ptr.null, 0⟩
      msghdr.zero zeroed_message token_signaled awaiter schedule_pre_cancelled _ action.request_cancellation _
      (by decide) rfl rfl rfl).2.1 rfl
  · exact (state_never_regresses recv_op false (queue_reporting [1, 1]) 7 0 ⟨Ptr.null, 0⟩
      msghdr.zero zeroed_message token_armed awaiter
      [action.hook, action.hook, action.hook, action.hook, action.hook, action.hook,
       action.request_cancellation, action.callback] _ action.callback _
      (by decide) rfl rfl rfl).1 (by decide)

/-! ## Cancellation after completion -/

end cppcoro
